import Mathlib

/-!
Verification of the elfa-sdk-js client library: a shallow embedding of the
HTTP transport (src/utils/http.ts), the error taxonomy (src/utils/errors.ts),
the primary API client (src/client/ElfaV2Client.ts), the secondary API client
(src/client/TwitterClient.ts), the response-enhancement engine
(src/utils/enhancer.ts) and the SDK facade (src/client/ElfaSDK.ts), together
with theorems settling the specified behavioural claims.

Modelling conventions:
* JavaScript numbers are Int (engagement rates are Rat); machine floats do
  not arise in the verified paths.
* Optional / possibly-undefined fields are Option.
* JavaScript truthiness of an optional string (undefined and the empty string
  are falsy) is the helper strTruthy; of an optional boolean, boolTruthy.
* Async methods that may throw are functions into Except SDKError.
* Network I/O is abstracted as an oracle argument; where a claim is about
  which calls happen, the embedding additionally returns the list of
  performed calls.
-/

namespace ElfaSdk

/-- JavaScript truthiness of a possibly-undefined string: undefined and ""
are falsy, every other string is truthy. -/
def strTruthy : Option String → Bool
  | none => false
  | some s => s != ""

/-- JavaScript truthiness of a possibly-undefined boolean. -/
def boolTruthy (o : Option Bool) : Bool := o.getD false

/-! ## Twitter payload types (src/types/twitter.ts) -/

/-- TwitterTweet.public_metrics in src/types/twitter.ts. -/
structure TweetPublicMetrics where
  retweet_count : Int
  like_count : Int
  reply_count : Int
  quote_count : Int
  impression_count : Option Int := none
  bookmark_count : Option Int := none
deriving Repr, DecidableEq

/-- TwitterTweet (the fields read by the SDK). -/
structure TwitterTweet where
  id : String
  text : String
  author_id : String
  created_at : String := ""
  public_metrics : Option TweetPublicMetrics := none
deriving Repr, DecidableEq

/-- TwitterUser.public_metrics in src/types/twitter.ts. -/
structure UserPublicMetrics where
  followers_count : Int
  following_count : Int := 0
  tweet_count : Int := 0
  listed_count : Int := 0
deriving Repr, DecidableEq

/-- TwitterUser (the fields read by the SDK); verified_type holds one of
"blue", "business", "government" when present. -/
structure TwitterUser where
  id : String
  name : String := ""
  username : String := ""
  verified : Option Bool := none
  verified_type : Option String := none
  public_metrics : Option UserPublicMetrics := none
deriving Repr, DecidableEq

/-- An entry of the response-body errors list of the Twitter API
(TwitterApiErrorResponse in src/types/twitter.ts). -/
structure TwApiErrorItem where
  title : String
  detail : Option String := none
  type : String := ""
deriving Repr, DecidableEq

/-- TwitterApiResponse for the batched tweets endpoint: data, the users of
the includes section, and the optional per-item errors list. -/
structure TwResponse where
  data : Option (List TwitterTweet) := none
  users : Option (List TwitterUser) := none
  errors : Option (List TwApiErrorItem) := none
deriving Repr, DecidableEq

/-! ## Tweet-id extraction (ResponseEnhancer.extractTweetId) -/

/-- The maximal leading run of decimal digits, as matched by the regex
fragment backslash-d-plus. -/
def leadingDigits : List Char → List Char
  | [] => []
  | c :: cs => if c.isDigit then c :: leadingDigits cs else []

/-- Left-to-right scan for the first position where the pattern
"/status/" followed by at least one digit matches, returning the captured
digit run; this is the behaviour of url.match on the enhancer's regex. -/
def findStatusId : List Char → Option (List Char)
  | [] => none
  | c :: cs =>
    if ("/status/".toList).isPrefixOf (c :: cs) then
      let ds := leadingDigits ((c :: cs).drop 8)
      if ds.isEmpty then findStatusId cs else some ds
    else findStatusId cs

/-- ResponseEnhancer.extractTweetId: the first digit run following a
"/status/" segment of the url, or null. -/
def extractTweetId (url : String) : Option String :=
  (findStatusId url.toList).map List.asString

/-! ## Enhanced metric computation (ResponseEnhancer.calculateEnhancedMetrics) -/

/-- EnhancedMetrics in src/types/enhanced.ts; engagement_rate is an exact
rational in the model. -/
structure EnhancedMetrics where
  impression_count : Option Int := none
  engagement_rate : Option ℚ := none
  reach : Option Int := none
  twitter_verified : Option Bool := none
deriving Repr, DecidableEq

/-- ResponseEnhancer.calculateEnhancedMetrics: copies impression_count,
computes engagement_rate only when impression_count is truthy and positive,
and fills reach / twitter_verified from the resolved user if any. -/
def calculateEnhancedMetrics (tweet : TwitterTweet) (user : Option TwitterUser) :
    EnhancedMetrics :=
  let m0 : EnhancedMetrics := {}
  let m1 :=
    match tweet.public_metrics with
    | none => m0
    | some pm =>
      let withImp : EnhancedMetrics := { m0 with impression_count := pm.impression_count }
      let totalEngagements :=
        pm.like_count + pm.retweet_count + pm.reply_count + pm.quote_count
      match pm.impression_count with
      | some k =>
        if k ≠ 0 ∧ 0 < k then
          { withImp with engagement_rate := some ((totalEngagements : ℚ) / (k : ℚ)) }
        else withImp
      | none => withImp
  match user with
  | none => m1
  | some u =>
    { m1 with
      reach := u.public_metrics.map UserPublicMetrics.followers_count
      twitter_verified := some (u.verified.getD false || u.verified_type.isSome) }

/-! ## Error taxonomy (src/utils/errors.ts) -/

/-- The SDK error classes; each constructor carries the data the class
stores. The constructor name plays the role of the JavaScript error name
consulted by isRetryableError. -/
inductive SDKError where
  | elfaApi (message : String) (statusCode : Int)
  | twitterApi (message : String)
  | validation (message : String)
  | rateLimit (message : String) (resetTimeMs : Option Int)
  | authentication (message : String)
  | network (message : String)
  | enhancement (message : String)
deriving Repr, DecidableEq

/-- The message carried by an SDK error. -/
def SDKError.message : SDKError → String
  | .elfaApi m _ => m
  | .twitterApi m => m
  | .validation m => m
  | .rateLimit m _ => m
  | .authentication m => m
  | .network m => m
  | .enhancement m => m

/-- isRetryableError in src/utils/errors.ts: RateLimitError and NetworkError
always, ElfaApiError exactly when its statusCode is truthy and in the 5xx
range, everything else never. -/
def isRetryableError : SDKError → Bool
  | .rateLimit _ _ => true
  | .network _ => true
  | .elfaApi _ statusCode =>
      if statusCode ≠ 0 then decide (500 ≤ statusCode) && decide (statusCode < 600)
      else false
  | _ => false

/-- SDKError.validation is the classification a thrown ValidationError gets
in the model. -/
def SDKError.isValidation : SDKError → Bool
  | .validation _ => true
  | _ => false

/-! ## HTTP transport (src/utils/http.ts) -/

/-- The two rate-limit headers read by HttpClient.extractRateLimitReset. -/
structure ResponseHeaders where
  x_ratelimit_reset : Option String := none
  retry_after : Option String := none
deriving Repr, DecidableEq

/-- The decimal value of a digit run. -/
def digitsToNat (ds : List Char) : Nat :=
  ds.foldl (fun acc c => acc * 10 + (c.toNat - Char.toNat '0')) 0

/-- The leading optional sign and digit run accepted by parseInt with radix
10; none models NaN. -/
def parseIntStr (s : String) : Option Int :=
  match s.toList with
  | '-' :: cs =>
    let ds := leadingDigits cs
    if ds.isEmpty then none else some (-(digitsToNat ds : Int))
  | '+' :: cs =>
    let ds := leadingDigits cs
    if ds.isEmpty then none else some (digitsToNat ds : Int)
  | cs =>
    let ds := leadingDigits cs
    if ds.isEmpty then none else some (digitsToNat ds : Int)

/-- HttpClient.extractRateLimitReset: reads x-ratelimit-reset, falling back
to retry-after under JavaScript truthiness, and when the chosen header is
truthy returns the Date built from parseInt(header) * 1000, i.e. the header
value interpreted as epoch seconds converted to epoch milliseconds. An
unparsable header (an Invalid Date in JavaScript) is modelled as none. -/
def extractRateLimitReset (h : ResponseHeaders) : Option Int :=
  let resetHeader := if strTruthy h.x_ratelimit_reset then h.x_ratelimit_reset
                     else h.retry_after
  match resetHeader with
  | some s => if s = "" then none else (parseIntStr s).map (· * 1000)
  | none => none

/-- The response body shapes distinguished by HttpClient.extractErrorMessage:
a string body, an object body with the three candidate fields, or anything
else (null, numbers, ...). -/
inductive JsonBody where
  | str (s : String)
  | obj (message errMsg detail : Option String)
  | other
deriving Repr, DecidableEq

/-- HttpClient.extractErrorMessage: the first truthy one of data.message,
data.error, data.detail with its defaults. -/
def extractErrorMessage : JsonBody → String
  | .str s => s
  | .obj message errMsg detail =>
    if strTruthy message then message.getD ""
    else if strTruthy errMsg then errMsg.getD ""
    else if strTruthy detail then detail.getD ""
    else "API request failed"
  | .other => "Unknown API error"

/-- The three shapes of an axios error consumed by
HttpClient.handleResponseError: a response was received, the request was
sent but no response arrived, or request construction failed. -/
inductive AxiosFailure where
  | response (status : Int) (body : JsonBody) (headers : ResponseHeaders)
  | request (message : String)
  | setup (message : String)
deriving Repr, DecidableEq

/-- HttpClient.handleResponseError: classifies an axios failure into the SDK
error taxonomy (401 authentication, 429 rate-limited with the extracted
reset time, other statuses ElfaApiError, no response NetworkError). -/
def handleResponseError : AxiosFailure → SDKError
  | .response status body headers =>
    let message := extractErrorMessage body
    if status = 401 then .authentication message
    else if status = 429 then .rateLimit message (extractRateLimitReset headers)
    else .elfaApi message status
  | .request m => .network ("Network error: " ++ m)
  | .setup m => .network ("Request setup error: " ++ m)

/-- The retry count resolution of HttpClient.request:
config.retries, else the client options' retries, else 3. -/
def resolveRetries (configRetries optionsRetries : Option Nat) : Nat :=
  configRetries.getD (optionsRetries.getD 3)

/-- One step of the retry loop of HttpClient.request. The oracle gives the
classified outcome of the attempt with the given index; remaining counts the
attempts still allowed after the current one. Returns the final outcome and
the list of backoff delays slept, in order; the delay before the retry of
attempt i is retryDelay * 2 ^ i. -/
def requestGo {α : Type} (oracle : Nat → Except SDKError α) (retryDelay : Nat) :
    Nat → Nat → Except SDKError α × List Nat
  | attempt, 0 => (oracle attempt, [])
  | attempt, remaining + 1 =>
    match oracle attempt with
    | .ok v => (.ok v, [])
    | .error e =>
      if isRetryableError e then
        let p := requestGo oracle retryDelay (attempt + 1) remaining
        (p.1, retryDelay * 2 ^ attempt :: p.2)
      else (.error e, [])

/-- HttpClient.request: runs attempts 0, 1, ..., up to maxRetries retries
after the first attempt, retrying only retryable classifications with
exponential backoff, and re-raising the last error otherwise. -/
def httpRequest {α : Type} (oracle : Nat → Except SDKError α)
    (maxRetries retryDelay : Nat) : Except SDKError α × List Nat :=
  requestGo oracle retryDelay 0 maxRetries

/-! ## Batched fetch (ResponseEnhancer.fetchTwitterData) -/

/-- Structural worker for the chunking loop: fuel bounds the number of
chunks taken. Since a positive batch size consumes at least one element per
chunk, fuel equal to the list length always suffices. -/
def chunksOfGo {α : Type} (batchSize : Nat) : Nat → List α → List (List α)
  | _, [] => []
  | 0, _ :: _ => []
  | fuel + 1, a :: rest =>
    (a :: rest).take batchSize :: chunksOfGo batchSize fuel ((a :: rest).drop batchSize)

/-- The successive slices tweetIds.slice(i, i + batchSize) produced by the
chunking loop of fetchTwitterData. An empty list results for batch size 0
(where the JavaScript loop would not terminate; all callers use a positive
size). -/
def chunksOf {α : Type} (batchSize : Nat) (l : List α) : List (List α) :=
  if batchSize = 0 then [] else chunksOfGo batchSize l.length l

/-- The effective batch size options.batchSize || this.batchSize (JavaScript
or: a present but zero per-call size falls back to the engine default). -/
def effBatchSize (optBatch : Option Nat) (engineDefault : Nat) : Nat :=
  match optBatch with
  | some b => if b = 0 then engineDefault else b
  | none => engineDefault

/-- The secondary client as seen by the enhancement engine: one batched
getTweets call per id chunk, returning the decoded response or throwing. -/
abbrev TwClient : Type := List String → Except SDKError TwResponse

/-- The sequential chunk loop of fetchTwitterData over an already-chunked id
list: pushes response.data and response.includes.users of each successful
call onto the accumulators, stops at the first throwing call. Returns the
outcome together with the batches actually sent. -/
def fetchGo (client : TwClient) :
    List (List String) → Except SDKError (List TwitterTweet × List TwitterUser) × List (List String)
  | [] => (.ok ([], []), [])
  | batch :: rest =>
    match client batch with
    | .error e => (.error e, [batch])
    | .ok response =>
      let p := fetchGo client rest
      ((do
          let (tweets, users) ← p.1
          pure (response.data.getD [] ++ tweets, response.users.getD [] ++ users)),
        batch :: p.2)

/-- ResponseEnhancer.fetchTwitterData: chunks the ids by the effective batch
size and runs the sequential chunk loop, accumulating all tweets and all
users across chunks. -/
def fetchTwitterData (client : TwClient) (optBatch : Option Nat)
    (engineDefault : Nat) (tweetIds : List String) :
    Except SDKError (List TwitterTweet × List TwitterUser) × List (List String) :=
  fetchGo client (chunksOf (effBatchSize optBatch engineDefault) tweetIds)

/-! ## Analytics record types (src/types/elfa.ts) -/

/-- ProcessedMention (the embedded reference is the link field). -/
structure ProcessedMention where
  tweetId : String
  link : String
  likeCount : Option Int := none
  repostCount : Option Int := none
  viewCount : Option Int := none
  quoteCount : Option Int := none
  replyCount : Option Int := none
  bookmarkCount : Option Int := none
  mentionedAt : String := ""
  type : String := ""
deriving Repr, DecidableEq

/-- SimpleMention (the embedded reference is the twitter_id field). -/
structure SimpleMention where
  id : Int
  twitter_id : String
  twitter_user_id : String := ""
  parent_tweet_id : String := ""
  content : String := ""
  mentioned_at : String := ""
  type : String := ""
deriving Repr, DecidableEq

/-- MentionWithAccountAndToken (the embedded reference is originalUrl). -/
structure MentionWithAccountAndToken where
  mentionId : Int
  content : String := ""
  type : String := ""
  originalUrl : String
  mentionedAt : String := ""
  sentiment : String := ""
deriving Repr, DecidableEq

/-- TopMentionV2 (same field layout as ProcessedMention, distinct type). -/
structure TopMentionV2 where
  tweetId : String
  link : String
  likeCount : Int := 0
  repostCount : Int := 0
  viewCount : Int := 0
  quoteCount : Int := 0
  replyCount : Int := 0
  bookmarkCount : Int := 0
  mentionedAt : String := ""
  type : String := ""
deriving Repr, DecidableEq

/-- The id of a V1 top mention, declared number but handled as string or
number by extractTweetIdFromV1Mention. -/
inductive V1Id where
  | str (s : String)
  | num (n : Int)
deriving Repr, DecidableEq

/-- An element of TopMentionsResponse.data.data, extended with the optional
url / link fields that extractTweetIdFromV1Mention probes. -/
structure TopMentionV1 where
  id : Option V1Id := none
  url : Option String := none
  link : Option String := none
  content : String := ""
  mentioned_at : String := ""
  view_count : Int := 0
  repost_count : Int := 0
  reply_count : Int := 0
  like_count : Int := 0
deriving Repr, DecidableEq

/-- TopMentionsResponse.data. -/
structure TopMentionsData where
  pageSize : Int := 0
  page : Int := 0
  total : Int := 0
  data : List TopMentionV1
deriving Repr, DecidableEq

/-- TopMentionsResponse (the V1 top-mentions envelope). -/
structure TopMentionsResponse where
  success : Bool := true
  data : TopMentionsData
deriving Repr, DecidableEq

/-! ## Enhanced record types (src/types/enhanced.ts) -/

/-- DataSource: "elfa" is the source-only tag, "elfaTwitter" the
source-plus-enhanced tag "elfa+twitter". -/
inductive DataSource where
  | elfa
  | elfaTwitter
deriving Repr, DecidableEq

/-- The twitter_data attachment of an enhanced record. -/
structure TwitterData where
  tweet : TwitterTweet
  user : Option TwitterUser := none
deriving Repr, DecidableEq

/-- EnhancedProcessedMention: the spread of the original mention plus the
enhancement fields. -/
structure EnhancedProcessedMention where
  base : ProcessedMention
  content : Option String := none
  enhanced_metrics : Option EnhancedMetrics := none
  data_source : DataSource
  twitter_data : Option TwitterData := none
deriving Repr, DecidableEq

/-- EnhancedSimpleMention: the spread of the original mention (whose content
field is overwritten by the tweet text on merge) plus enhancement fields. -/
structure EnhancedSimpleMention where
  base : SimpleMention
  enhanced_metrics : Option EnhancedMetrics := none
  data_source : DataSource
  twitter_data : Option TwitterData := none
deriving Repr, DecidableEq

/-- EnhancedMentionWithAccountAndToken. -/
structure EnhancedMentionWithAccountAndToken where
  base : MentionWithAccountAndToken
  enhanced_metrics : Option EnhancedMetrics := none
  data_source : DataSource
  twitter_data : Option TwitterData := none
deriving Repr, DecidableEq

/-- EnhancedTopMentionV2. -/
structure EnhancedTopMentionV2 where
  base : TopMentionV2
  content : Option String := none
  enhanced_metrics : Option EnhancedMetrics := none
  data_source : DataSource
  twitter_data : Option TwitterData := none
deriving Repr, DecidableEq

/-- An element of EnhancedTopMentionsV1Response.data.data; the base mention's
content field is overwritten by the tweet text on merge. -/
structure EnhancedTopMentionV1 where
  base : TopMentionV1
  enhanced_metrics : Option EnhancedMetrics := none
  data_source : DataSource
  twitter_data : Option TwitterData := none
deriving Repr, DecidableEq

/-- EnhancedTopMentionsV1Response.data. -/
structure EnhancedTopMentionsV1Data where
  pageSize : Int := 0
  page : Int := 0
  total : Int := 0
  data : List EnhancedTopMentionV1
deriving Repr, DecidableEq

/-- EnhancedTopMentionsV1Response. -/
structure EnhancedTopMentionsV1Response where
  success : Bool := true
  data : EnhancedTopMentionsV1Data
deriving Repr, DecidableEq

/-- EnhancementOptions in src/types/enhanced.ts; all fields optional. -/
structure EnhancementOptions where
  includeContent : Option Bool := none
  includeMetrics : Option Bool := none
  fallbackToV2 : Option Bool := none
  batchSize : Option Nat := none
  timeout : Option Nat := none
deriving Repr, DecidableEq

/-- EnhancementResult.enhancement_info. -/
structure EnhancementInfo where
  total_enhanced : Int
  failed_enhancements : Int
  twitter_api_used : Bool
  errors : Option (List String) := none
deriving Repr, DecidableEq

/-- EnhancementResult. -/
structure EnhancementResult (α : Type) where
  data : α
  enhancement_info : EnhancementInfo
deriving Repr, DecidableEq

/-! ## Merge step (ResponseEnhancer.merge*WithTwitterData) -/

/-- Lookup in the tweetsMap built by repeated Map.set over the accumulated
tweet list: the last inserted tweet with the key wins. -/
def lookupTweet (tweets : List TwitterTweet) (k : String) : Option TwitterTweet :=
  tweets.reverse.find? (fun t => t.id == k)

/-- Lookup in the usersMap built by repeated Map.set over the accumulated
user list: the last inserted user with the key wins. -/
def lookupUser (users : List TwitterUser) (k : String) : Option TwitterUser :=
  users.reverse.find? (fun u => u.id == k)

/-- The number of records of a merged list tagged "elfa+twitter"; this is
the filter-by-data_source count the enhancer computes for total_enhanced. -/
def countTagged {α : Type} (dataSource : α → DataSource) (l : List α) : Nat :=
  (l.filter (fun m => dataSource m == DataSource.elfaTwitter)).length

/-- ResponseEnhancer.mergeProcessedMentionsWithTwitterData. -/
def mergeProcessedMentionsWithTwitterData (mentions : List ProcessedMention)
    (tweets : List TwitterTweet) (users : List TwitterUser) :
    List EnhancedProcessedMention :=
  mentions.map fun mention =>
    let tweetId := extractTweetId mention.link
    let tweet := match tweetId with
      | some tid => lookupTweet tweets tid
      | none => none
    match tweet with
    | some tw =>
      let user := lookupUser users tw.author_id
      { base := mention, content := some tw.text,
        enhanced_metrics := some (calculateEnhancedMetrics tw user),
        data_source := .elfaTwitter,
        twitter_data := some { tweet := tw, user := user } }
    | none => { base := mention, data_source := .elfa }

/-- ResponseEnhancer.mergeSimpleMentionsWithTwitterData; the spread
overwrites the mention's own content field with the tweet text. -/
def mergeSimpleMentionsWithTwitterData (mentions : List SimpleMention)
    (tweets : List TwitterTweet) (users : List TwitterUser) :
    List EnhancedSimpleMention :=
  mentions.map fun mention =>
    match lookupTweet tweets mention.twitter_id with
    | some tw =>
      let user := lookupUser users tw.author_id
      { base := { mention with content := tw.text },
        enhanced_metrics := some (calculateEnhancedMetrics tw user),
        data_source := .elfaTwitter,
        twitter_data := some { tweet := tw, user := user } }
    | none => { base := mention, data_source := .elfa }

/-- ResponseEnhancer.mergeMentionsWithAccountAndTokenWithTwitterData; the
spread overwrites the mention's own content field with the tweet text. -/
def mergeMentionsWithAccountAndTokenWithTwitterData
    (mentions : List MentionWithAccountAndToken)
    (tweets : List TwitterTweet) (users : List TwitterUser) :
    List EnhancedMentionWithAccountAndToken :=
  mentions.map fun mention =>
    let tweetId := extractTweetId mention.originalUrl
    let tweet := match tweetId with
      | some tid => lookupTweet tweets tid
      | none => none
    match tweet with
    | some tw =>
      let user := lookupUser users tw.author_id
      { base := { mention with content := tw.text },
        enhanced_metrics := some (calculateEnhancedMetrics tw user),
        data_source := .elfaTwitter,
        twitter_data := some { tweet := tw, user := user } }
    | none => { base := mention, data_source := .elfa }

/-- ResponseEnhancer.mergeTopMentionsV2WithTwitterData. -/
def mergeTopMentionsV2WithTwitterData (mentions : List TopMentionV2)
    (tweets : List TwitterTweet) (users : List TwitterUser) :
    List EnhancedTopMentionV2 :=
  mentions.map fun mention =>
    let tweetId := extractTweetId mention.link
    let tweet := match tweetId with
      | some tid => lookupTweet tweets tid
      | none => none
    match tweet with
    | some tw =>
      let user := lookupUser users tw.author_id
      { base := mention, content := some tw.text,
        enhanced_metrics := some (calculateEnhancedMetrics tw user),
        data_source := .elfaTwitter,
        twitter_data := some { tweet := tw, user := user } }
    | none => { base := mention, data_source := .elfa }

/-- The url || link fallback of ResponseEnhancer.extractTweetIdFromV1Mention. -/
def v1UrlFallback (mention : TopMentionV1) : Option String :=
  let url := if strTruthy mention.url then mention.url else mention.link
  match url with
  | some u => if u = "" then none else extractTweetId u
  | none => none

/-- ResponseEnhancer.extractTweetIdFromV1Mention: a truthy string id is
returned as is, a truthy number id is stringified, otherwise the id is
extracted from the url or link field. -/
def extractTweetIdFromV1Mention (mention : TopMentionV1) : Option String :=
  match mention.id with
  | some (.str s) => if s ≠ "" then some s else v1UrlFallback mention
  | some (.num n) => if n ≠ 0 then some (toString n) else v1UrlFallback mention
  | none => v1UrlFallback mention

/-- ResponseEnhancer.mergeTopMentionsV1WithTwitterData; the merged element's
content is overwritten with the fresh tweet text. -/
def mergeTopMentionsV1WithTwitterData (response : TopMentionsResponse)
    (tweets : List TwitterTweet) (users : List TwitterUser) :
    EnhancedTopMentionsV1Response :=
  let enhancedMentions := response.data.data.map fun mention =>
    let tweetId := extractTweetIdFromV1Mention mention
    let tweet := match tweetId with
      | some tid => lookupTweet tweets tid
      | none => none
    match tweet with
    | some tw =>
      let user := lookupUser users tw.author_id
      ({ base := { mention with content := tw.text },
         enhanced_metrics := some (calculateEnhancedMetrics tw user),
         data_source := .elfaTwitter,
         twitter_data := some { tweet := tw, user := user } } : EnhancedTopMentionV1)
    | none => { base := mention, data_source := .elfa }
  { success := response.success,
    data := { pageSize := response.data.pageSize, page := response.data.page,
              total := response.data.total, data := enhancedMentions } }

/-- ResponseEnhancer.transformToEnhancedV1Format: tags every V1 mention with
the given data source without touching anything else. -/
def transformToEnhancedV1Format (response : TopMentionsResponse)
    (dataSource : DataSource) : EnhancedTopMentionsV1Response :=
  { success := response.success,
    data := { pageSize := response.data.pageSize, page := response.data.page,
              total := response.data.total,
              data := response.data.data.map
                (fun m => { base := m, data_source := dataSource }) } }

/-! ## The five enhance operations (ResponseEnhancer.enhance*) -/

/-- The all-zero enhancement summary of the short-circuit paths. -/
def sourceOnlyInfo : EnhancementInfo :=
  { total_enhanced := 0, failed_enhancements := 0, twitter_api_used := false }

/-- The short-circuit result tagging every processed mention source-only. -/
def sourceOnlyProcessed (mentions : List ProcessedMention) :
    EnhancementResult (List EnhancedProcessedMention) :=
  { data := mentions.map (fun m => { base := m, data_source := DataSource.elfa }),
    enhancement_info := sourceOnlyInfo }

/-- The short-circuit result tagging every simple mention source-only. -/
def sourceOnlySimple (mentions : List SimpleMention) :
    EnhancementResult (List EnhancedSimpleMention) :=
  { data := mentions.map (fun m => { base := m, data_source := DataSource.elfa }),
    enhancement_info := sourceOnlyInfo }

/-- The short-circuit result tagging every account-and-token mention
source-only. -/
def sourceOnlyAccountToken (mentions : List MentionWithAccountAndToken) :
    EnhancementResult (List EnhancedMentionWithAccountAndToken) :=
  { data := mentions.map (fun m => { base := m, data_source := DataSource.elfa }),
    enhancement_info := sourceOnlyInfo }

/-- The short-circuit result tagging every V2 top mention source-only. -/
def sourceOnlyTopV2 (mentions : List TopMentionV2) :
    EnhancementResult (List EnhancedTopMentionV2) :=
  { data := mentions.map (fun m => { base := m, data_source := DataSource.elfa }),
    enhancement_info := sourceOnlyInfo }

/-- The short-circuit result for the V1 top-mentions envelope. -/
def sourceOnlyTopV1 (response : TopMentionsResponse) :
    EnhancementResult EnhancedTopMentionsV1Response :=
  { data := transformToEnhancedV1Format response DataSource.elfa,
    enhancement_info := sourceOnlyInfo }

/-- ResponseEnhancer.enhanceProcessedMentions. The engine's configured
twitterClient and default batch size are the first two arguments. -/
def enhanceProcessedMentions (twitterClient : Option TwClient)
    (engineBatchSize : Nat) (mentions : List ProcessedMention)
    (options : EnhancementOptions) :
    Except SDKError (EnhancementResult (List EnhancedProcessedMention)) :=
  match twitterClient with
  | none => .ok (sourceOnlyProcessed mentions)
  | some client =>
    if !(boolTruthy options.includeContent) then .ok (sourceOnlyProcessed mentions)
    else
      let tweetIds := mentions.filterMap (fun m => extractTweetId m.link)
      if tweetIds.isEmpty then .ok (sourceOnlyProcessed mentions)
      else
        match (fetchTwitterData client options.batchSize engineBatchSize tweetIds).1 with
        | .ok (tweets, users) =>
          let enhanced := mergeProcessedMentionsWithTwitterData mentions tweets users
          .ok { data := enhanced,
                enhancement_info :=
                  { total_enhanced := (countTagged (·.data_source) enhanced : Int),
                    failed_enhancements :=
                      (mentions.length : Int) - (countTagged (·.data_source) enhanced : Int),
                    twitter_api_used := true } }
        | .error e =>
          if options.fallbackToV2 ≠ some false then
            .ok { data := mentions.map (fun m => { base := m, data_source := DataSource.elfa }),
                  enhancement_info :=
                    { total_enhanced := 0,
                      failed_enhancements := (mentions.length : Int),
                      twitter_api_used := false,
                      errors := some [e.message] } }
          else .error (.enhancement "Failed to enhance mentions with Twitter data")

/-- ResponseEnhancer.enhanceSimpleMentions. Note: unlike the other four
operations there is no empty-id-set short-circuit between key extraction and
the fetch step. -/
def enhanceSimpleMentions (twitterClient : Option TwClient)
    (engineBatchSize : Nat) (mentions : List SimpleMention)
    (options : EnhancementOptions) :
    Except SDKError (EnhancementResult (List EnhancedSimpleMention)) :=
  match twitterClient with
  | none => .ok (sourceOnlySimple mentions)
  | some client =>
    if !(boolTruthy options.includeContent) then .ok (sourceOnlySimple mentions)
    else
      let tweetIds := mentions.map (fun m => m.twitter_id)
      match (fetchTwitterData client options.batchSize engineBatchSize tweetIds).1 with
      | .ok (tweets, users) =>
        let enhanced := mergeSimpleMentionsWithTwitterData mentions tweets users
        .ok { data := enhanced,
              enhancement_info :=
                { total_enhanced := (countTagged (·.data_source) enhanced : Int),
                  failed_enhancements :=
                    (mentions.length : Int) - (countTagged (·.data_source) enhanced : Int),
                  twitter_api_used := true } }
      | .error e =>
        if options.fallbackToV2 ≠ some false then
          .ok { data := mentions.map (fun m => { base := m, data_source := DataSource.elfa }),
                enhancement_info :=
                  { total_enhanced := 0,
                    failed_enhancements := (mentions.length : Int),
                    twitter_api_used := false,
                    errors := some [e.message] } }
        else .error (.enhancement "Failed to enhance mentions with Twitter data")

/-- ResponseEnhancer.enhanceMentionsWithAccountAndToken. -/
def enhanceMentionsWithAccountAndToken (twitterClient : Option TwClient)
    (engineBatchSize : Nat) (mentions : List MentionWithAccountAndToken)
    (options : EnhancementOptions) :
    Except SDKError (EnhancementResult (List EnhancedMentionWithAccountAndToken)) :=
  match twitterClient with
  | none => .ok (sourceOnlyAccountToken mentions)
  | some client =>
    if !(boolTruthy options.includeContent) then .ok (sourceOnlyAccountToken mentions)
    else
      let tweetIds := mentions.filterMap (fun m => extractTweetId m.originalUrl)
      if tweetIds.isEmpty then .ok (sourceOnlyAccountToken mentions)
      else
        match (fetchTwitterData client options.batchSize engineBatchSize tweetIds).1 with
        | .ok (tweets, users) =>
          let enhanced := mergeMentionsWithAccountAndTokenWithTwitterData mentions tweets users
          .ok { data := enhanced,
                enhancement_info :=
                  { total_enhanced := (countTagged (·.data_source) enhanced : Int),
                    failed_enhancements :=
                      (mentions.length : Int) - (countTagged (·.data_source) enhanced : Int),
                    twitter_api_used := true } }
        | .error e =>
          if options.fallbackToV2 ≠ some false then
            .ok { data := mentions.map (fun m => { base := m, data_source := DataSource.elfa }),
                  enhancement_info :=
                    { total_enhanced := 0,
                      failed_enhancements := (mentions.length : Int),
                      twitter_api_used := false,
                      errors := some [e.message] } }
          else .error (.enhancement "Failed to enhance mentions with Twitter data")

/-- ResponseEnhancer.enhanceTopMentionsV2. Two deviations from the first
three operations, faithful to the source: the merge-path failure count is
relative to the extracted id list rather than the input list, and the
fallback branch requires fallbackToV2 to be truthy (an unset option
propagates the failure). -/
def enhanceTopMentionsV2 (twitterClient : Option TwClient)
    (engineBatchSize : Nat) (mentions : List TopMentionV2)
    (options : EnhancementOptions) :
    Except SDKError (EnhancementResult (List EnhancedTopMentionV2)) :=
  match twitterClient with
  | none => .ok (sourceOnlyTopV2 mentions)
  | some client =>
    if !(boolTruthy options.includeContent) then .ok (sourceOnlyTopV2 mentions)
    else
      let tweetIds := mentions.filterMap (fun m => extractTweetId m.link)
      if tweetIds.isEmpty then .ok (sourceOnlyTopV2 mentions)
      else
        match (fetchTwitterData client options.batchSize engineBatchSize tweetIds).1 with
        | .ok (tweets, users) =>
          let enhanced := mergeTopMentionsV2WithTwitterData mentions tweets users
          .ok { data := enhanced,
                enhancement_info :=
                  { total_enhanced := (countTagged (·.data_source) enhanced : Int),
                    failed_enhancements :=
                      (tweetIds.length : Int) - (countTagged (·.data_source) enhanced : Int),
                    twitter_api_used := true } }
        | .error e =>
          if boolTruthy options.fallbackToV2 then
            .ok { data := mentions.map (fun m => { base := m, data_source := DataSource.elfa }),
                  enhancement_info :=
                    { total_enhanced := 0,
                      failed_enhancements := (mentions.length : Int),
                      twitter_api_used := false,
                      errors := some [e.message] } }
          else .error (.enhancement ("Failed to enhance TopMentionsV2: " ++ e.message))

/-- ResponseEnhancer.enhanceTopMentionsV1; same two deviations as
enhanceTopMentionsV2. -/
def enhanceTopMentionsV1 (twitterClient : Option TwClient)
    (engineBatchSize : Nat) (response : TopMentionsResponse)
    (options : EnhancementOptions) :
    Except SDKError (EnhancementResult EnhancedTopMentionsV1Response) :=
  match twitterClient with
  | none => .ok (sourceOnlyTopV1 response)
  | some client =>
    if !(boolTruthy options.includeContent) then .ok (sourceOnlyTopV1 response)
    else
      let mentions := response.data.data
      let tweetIds := mentions.filterMap extractTweetIdFromV1Mention
      if tweetIds.isEmpty then .ok (sourceOnlyTopV1 response)
      else
        match (fetchTwitterData client options.batchSize engineBatchSize tweetIds).1 with
        | .ok (tweets, users) =>
          let enhancedData := mergeTopMentionsV1WithTwitterData response tweets users
          .ok { data := enhancedData,
                enhancement_info :=
                  { total_enhanced :=
                      (countTagged (·.data_source) enhancedData.data.data : Int),
                    failed_enhancements :=
                      (tweetIds.length : Int) -
                        (countTagged (·.data_source) enhancedData.data.data : Int),
                    twitter_api_used := true } }
        | .error e =>
          if boolTruthy options.fallbackToV2 then
            .ok { data := transformToEnhancedV1Format response DataSource.elfa,
                  enhancement_info :=
                    { total_enhanced := 0,
                      failed_enhancements := (mentions.length : Int),
                      twitter_api_used := false,
                      errors := some [e.message] } }
          else .error (.enhancement ("Failed to enhance TopMentionsV1: " ++ e.message))

/-! ## Primary API client (src/client/ElfaV2Client.ts) -/

/-- TrendingTokensParams / TrendingCAsParams: the window-or-range parameters
plus paging; fromTs and toTs embed the from and to fields. -/
structure TrendingWindowParams where
  timeWindow : Option String := none
  fromTs : Option Int := none
  toTs : Option Int := none
  page : Option Int := none
  pageSize : Option Int := none
  minMentions : Option Int := none
deriving Repr, DecidableEq

/-- ElfaV2Client.validateTimeWindowOrFromTo: rejects a lone from or to, then
rejects the absence of both a truthy timeWindow and a complete from/to pair;
a complete from/to pair passes regardless of timeWindow. -/
def validateTimeWindowOrFromTo (p : TrendingWindowParams) : Except SDKError Unit :=
  let hasTimeWindow := strTruthy p.timeWindow
  let hasFrom := p.fromTs.isSome
  let hasTo := p.toTs.isSome
  if (hasFrom && !hasTo) || (!hasFrom && hasTo) then
    .error (.validation "When using from/to parameters, both from and to must be provided")
  else if !hasTimeWindow && (!hasFrom || !hasTo) then
    .error (.validation "You must provide either timeWindow or both from and to parameters")
  else .ok ()

/-- The query-string pairs appended by the three trending endpoints, in
source order; omitted optional parameters are absent. -/
def trendingQuery (p : TrendingWindowParams) : List (String × String) :=
  (match p.timeWindow with
   | some w => if w ≠ "" then [("timeWindow", w)] else []
   | none => []) ++
  (match p.fromTs with | some v => [("from", toString v)] | none => []) ++
  (match p.toTs with | some v => [("to", toString v)] | none => []) ++
  (match p.page with | some v => [("page", toString v)] | none => []) ++
  (match p.pageSize with | some v => [("pageSize", toString v)] | none => []) ++
  (match p.minMentions with | some v => [("minMentions", toString v)] | none => [])

/-- The HTTP GET request a primary-client endpoint hands to the transport:
its path and query pairs. -/
structure GetRequest where
  path : String
  query : List (String × String)
deriving Repr, DecidableEq

/-- ElfaV2Client.getTrendingTokens up to the network boundary: validates,
then produces the request it would send; a validation error means no request
is ever built. -/
def getTrendingTokens (p : TrendingWindowParams) : Except SDKError GetRequest := do
  validateTimeWindowOrFromTo p
  pure { path := "/v2/aggregations/trending-tokens", query := trendingQuery p }

/-- ElfaV2Client.getTrendingCAsTwitter up to the network boundary. -/
def getTrendingCAsTwitter (p : TrendingWindowParams) : Except SDKError GetRequest := do
  validateTimeWindowOrFromTo p
  pure { path := "/v2/aggregations/trending-cas/twitter", query := trendingQuery p }

/-- ElfaV2Client.getTrendingCAsTelegram up to the network boundary. -/
def getTrendingCAsTelegram (p : TrendingWindowParams) : Except SDKError GetRequest := do
  validateTimeWindowOrFromTo p
  pure { path := "/v2/aggregations/trending-cas/telegram", query := trendingQuery p }

/-! ## Secondary API client (src/client/TwitterClient.ts) -/

/-- TwitterClient.getTweets over a network oracle giving the transport's
outcome for the batched GET. Returns the decoded response or the thrown
error, together with the list of id batches actually sent over the network
(empty when the method fails fast before any network call). -/
def getTweets (tweetIds : List String)
    (net : List String → Except SDKError TwResponse) :
    Except SDKError TwResponse × List (List String) :=
  if tweetIds.length = 0 then (.ok { data := some [] }, [])
  else if tweetIds.length > 100 then
    (.error (.twitterApi "Cannot fetch more than 100 tweets at once"), [])
  else
    match net tweetIds with
    | .ok response =>
      match response.errors with
      | some errs =>
        if errs.length ≠ 0 then
          (.error (.twitterApi ("Twitter API errors: " ++
             String.intercalate ", " (errs.map TwApiErrorItem.title))), [tweetIds])
        else (.ok response, [tweetIds])
      | none => (.ok response, [tweetIds])
    | .error e =>
      match e with
      | .twitterApi _ => (.error e, [tweetIds])
      | _ => (.error (.twitterApi ("Failed to fetch tweets: " ++ e.message)), [tweetIds])

/-! ## SDK facade options (src/client/ElfaSDK.ts) -/

/-- The resolved option record stored on the ElfaSDK instance after
construction (defaults already applied). -/
structure SDKConfig where
  elfaApiKey : String
  twitterApiKey : Option String := none
  baseUrl : String := "https://api.elfa.ai"
  fetchRawTweets : Bool := false
  enhancementTimeout : Int := 30000
  maxBatchSize : Int := 100
  strictMode : Bool := false
  cacheEnhancements : Bool := false
  respectRateLimits : Bool := true
  retryOnRateLimit : Bool := true
  debug : Bool := false
deriving Repr, DecidableEq

/-- Partial-of-SDKOptions as accepted by ElfaSDK.updateOptions: every field
optional; none models an absent key. -/
structure PartialSDKOptions where
  elfaApiKey : Option String := none
  twitterApiKey : Option String := none
  baseUrl : Option String := none
  fetchRawTweets : Option Bool := none
  enhancementTimeout : Option Int := none
  maxBatchSize : Option Int := none
  strictMode : Option Bool := none
  cacheEnhancements : Option Bool := none
  respectRateLimits : Option Bool := none
  retryOnRateLimit : Option Bool := none
  debug : Option Bool := none
deriving Repr, DecidableEq

/-- ElfaSDK.updateOptions: rejects a truthy elfaApiKey or twitterApiKey in
the update, then merges the update shallowly over the stored options by
object spread. -/
def updateOptions (cfg : SDKConfig) (n : PartialSDKOptions) :
    Except SDKError SDKConfig :=
  if strTruthy n.elfaApiKey then
    .error (.validation "Cannot update elfaApiKey after initialization")
  else if strTruthy n.twitterApiKey then
    .error (.validation "Cannot update twitterApiKey after initialization")
  else
    .ok { elfaApiKey := n.elfaApiKey.getD cfg.elfaApiKey
          twitterApiKey := match n.twitterApiKey with
            | some k => some k
            | none => cfg.twitterApiKey
          baseUrl := n.baseUrl.getD cfg.baseUrl
          fetchRawTweets := n.fetchRawTweets.getD cfg.fetchRawTweets
          enhancementTimeout := n.enhancementTimeout.getD cfg.enhancementTimeout
          maxBatchSize := n.maxBatchSize.getD cfg.maxBatchSize
          strictMode := n.strictMode.getD cfg.strictMode
          cacheEnhancements := n.cacheEnhancements.getD cfg.cacheEnhancements
          respectRateLimits := n.respectRateLimits.getD cfg.respectRateLimits
          retryOnRateLimit := n.retryOnRateLimit.getD cfg.retryOnRateLimit
          debug := n.debug.getD cfg.debug }

/-- The state transition of one updateOptions call on the instance: a thrown
validation error leaves the stored options untouched. -/
def applyUpdate (cfg : SDKConfig) (n : PartialSDKOptions) : SDKConfig :=
  match updateOptions cfg n with
  | .ok c => c
  | .error _ => cfg

/-- A sequence of updateOptions calls applied to the instance in order. -/
def applyUpdates (cfg : SDKConfig) (l : List PartialSDKOptions) : SDKConfig :=
  l.foldl applyUpdate cfg

/-! ## Theorems -/

/-- C7: for getTrendingTokens, getTrendingCAsTwitter and
getTrendingCAsTelegram, a ValidationFailure is raised before any request is
built whenever neither a truthy timeWindow nor both of from/to are supplied,
or exactly one of from/to is supplied; and whenever both from and to are
supplied (in particular together with a timeWindow) no error is raised. -/
theorem c7_time_window_validation (p : TrendingWindowParams) :
    ((strTruthy p.timeWindow = false ∧ (p.fromTs = none ∨ p.toTs = none)) ∨
       (p.fromTs ≠ none ∧ p.toTs = none) ∨ (p.fromTs = none ∧ p.toTs ≠ none) →
      (∃ m, getTrendingTokens p = .error (.validation m)) ∧
      (∃ m, getTrendingCAsTwitter p = .error (.validation m)) ∧
      (∃ m, getTrendingCAsTelegram p = .error (.validation m))) ∧
    (p.fromTs ≠ none → p.toTs ≠ none →
      getTrendingTokens p =
        .ok { path := "/v2/aggregations/trending-tokens", query := trendingQuery p } ∧
      getTrendingCAsTwitter p =
        .ok { path := "/v2/aggregations/trending-cas/twitter", query := trendingQuery p } ∧
      getTrendingCAsTelegram p =
        .ok { path := "/v2/aggregations/trending-cas/telegram", query := trendingQuery p }) := by
  constructor
  · intro h
    refine ⟨?_, ?_, ?_⟩ <;>
      · simp only [getTrendingTokens, getTrendingCAsTwitter, getTrendingCAsTelegram,
          validateTimeWindowOrFromTo]
        rcases h with ⟨hw, hft⟩ | ⟨hf, ht⟩ | ⟨hf, ht⟩
        · rcases hft with hf | ht
          · cases hto : p.toTs <;>
              simp [hw, hf, hto, Option.isSome, bind, Except.bind]
          · cases hfo : p.fromTs <;>
              simp [hw, hfo, ht, Option.isSome, bind, Except.bind]
        · rcases Option.ne_none_iff_exists.mp hf with ⟨a, ha⟩
          simp [← ha, ht, Option.isSome, bind, Except.bind]
        · rcases Option.ne_none_iff_exists.mp ht with ⟨b, hb⟩
          simp [hf, ← hb, Option.isSome, bind, Except.bind]
  · intro hf ht
    rcases Option.ne_none_iff_exists.mp hf with ⟨a, ha⟩
    rcases Option.ne_none_iff_exists.mp ht with ⟨b, hb⟩
    refine ⟨?_, ?_, ?_⟩ <;>
      simp [getTrendingTokens, getTrendingCAsTwitter, getTrendingCAsTelegram,
        validateTimeWindowOrFromTo, ← ha, ← hb, Option.isSome, bind, Except.bind, pure,
        Except.pure]

/-- Witness for c7_time_window_validation: a lone from of 1000 is rejected
and a full from/to pair alongside a timeWindow is accepted. -/
theorem c7_time_window_validation_witness :
    (∃ m, getTrendingTokens { fromTs := some 1000 } = .error (.validation m)) ∧
    getTrendingTokens { timeWindow := some "24h", fromTs := some 1000, toTs := some 2000 } =
      .ok { path := "/v2/aggregations/trending-tokens",
            query := [("timeWindow", "24h"), ("from", "1000"), ("to", "2000")] } := by
  constructor
  · exact ((c7_time_window_validation { fromTs := some 1000 }).1
      (Or.inr (Or.inl ⟨by simp, rfl⟩))).1
  · have h := ((c7_time_window_validation
      { timeWindow := some "24h", fromTs := some 1000, toTs := some 2000 }).2
      (by simp) (by simp)).1
    simpa [trendingQuery] using h

/-- C8: TwitterClient.getTweets returns an empty result with no network call
for an empty id list, fails fast with a SecondaryApiFailure before any
network call for more than 100 ids, and raises a SecondaryApiFailure joining
the error titles when the response body carries a non-empty errors list. -/
theorem c8_get_tweets_contract (ids : List String)
    (net : List String → Except SDKError TwResponse) :
    (ids = [] → getTweets ids net = (.ok { data := some [] }, [])) ∧
    (ids.length > 100 →
      getTweets ids net =
        (.error (.twitterApi "Cannot fetch more than 100 tweets at once"), [])) ∧
    (∀ r errs, ids ≠ [] → ids.length ≤ 100 → net ids = .ok r → r.errors = some errs →
      errs ≠ [] →
      getTweets ids net =
        (.error (.twitterApi ("Twitter API errors: " ++
          String.intercalate ", " (errs.map TwApiErrorItem.title))), [ids])) := by
  refine ⟨?_, ?_, ?_⟩
  · intro h; subst h; simp [getTweets]
  · intro h
    have hne : ¬ ids.length = 0 := by omega
    simp [getTweets, hne, h]
  · intro r errs hne hle hnet herrs hnil
    have h0 : ¬ ids.length = 0 := by
      simpa [List.length_eq_zero] using hne
    have h100 : ¬ ids.length > 100 := by omega
    simp [getTweets, h0, h100, hnet, herrs, List.length_eq_zero, hnil]

/-- Witness for c8_get_tweets_contract: 101 ids are rejected without a
network call, and a 200-response body carrying one error item raises with
the joined titles. -/
theorem c8_get_tweets_contract_witness :
    getTweets (List.replicate 101 "1") (fun _ => .ok {}) =
      (.error (.twitterApi "Cannot fetch more than 100 tweets at once"), []) ∧
    getTweets ["7"] (fun _ => .ok { errors := some [{ title := "Not Found Error" }] }) =
      (.error (.twitterApi "Twitter API errors: Not Found Error"), [["7"]]) := by
  constructor
  · exact (c8_get_tweets_contract (List.replicate 101 "1") (fun _ => .ok {})).2.1 (by simp)
  · exact (c8_get_tweets_contract ["7"]
      (fun _ => .ok { errors := some [{ title := "Not Found Error" }] })).2.2
      { errors := some [{ title := "Not Found Error" }] } [{ title := "Not Found Error" }]
      (by simp) (by simp) rfl rfl (by simp)

/-- The retry loop sleeps (and hence retries) at most the allowed number of
times. -/
theorem requestGo_length_le {α : Type} (oracle : Nat → Except SDKError α) (d : Nat) :
    ∀ (r a : Nat), (requestGo oracle d a r).2.length ≤ r := by
  intro r
  induction r with
  | zero => intro a; simp [requestGo]
  | succ r ih =>
    intro a
    cases h : oracle a with
    | ok v => simp [requestGo, h]
    | error e =>
      by_cases he : isRetryableError e
      · simp only [requestGo, h, he, if_true, List.length_cons]
        exact Nat.succ_le_succ (ih (a + 1))
      · simp [requestGo, h, he]

/-- The backoff delay before the retry of attempt a + i is d * 2 ^ (a + i). -/
theorem requestGo_delay {α : Type} (oracle : Nat → Except SDKError α) (d : Nat) :
    ∀ (r a i : Nat), i < (requestGo oracle d a r).2.length →
      (requestGo oracle d a r).2.get? i = some (d * 2 ^ (a + i)) := by
  intro r
  induction r with
  | zero => intro a i h; simp [requestGo] at h
  | succ r ih =>
    intro a i h
    cases ho : oracle a with
    | ok v => simp only [requestGo, ho] at h; simp at h
    | error e =>
      by_cases he : isRetryableError e
      · simp only [requestGo, ho, he, if_true] at h ⊢
        cases i with
        | zero => simp
        | succ i =>
          simp only [List.length_cons, Nat.add_lt_add_iff_right] at h
          simp only [List.get?_cons_succ]
          have hrec := ih (a + 1) i h
          rw [show a + 1 + i = a + (i + 1) from by omega] at hrec
          exact hrec
      · simp only [requestGo, ho, he, if_false] at h; simp at h

/-- Each slept retry corresponds to a failed attempt whose classification
was retryable. -/
theorem requestGo_retry_only_retryable {α : Type} (oracle : Nat → Except SDKError α)
    (d : Nat) :
    ∀ (r a i : Nat), i < (requestGo oracle d a r).2.length →
      ∃ e, oracle (a + i) = .error e ∧ isRetryableError e = true := by
  intro r
  induction r with
  | zero => intro a i h; simp [requestGo] at h
  | succ r ih =>
    intro a i h
    cases ho : oracle a with
    | ok v => simp only [requestGo, ho] at h; simp at h
    | error e =>
      by_cases he : isRetryableError e
      · simp only [requestGo, ho, he, if_true, List.length_cons] at h
        cases i with
        | zero => exact ⟨e, by simpa using ho, he⟩
        | succ i =>
          have hi : i < (requestGo oracle d (a + 1) r).2.length := by omega
          obtain ⟨f, hf, hfr⟩ := ih (a + 1) i hi
          exact ⟨f, by rw [show a + (i + 1) = a + 1 + i by omega]; exact hf, hfr⟩
      · simp only [requestGo, ho, he, if_false] at h; simp at h

/-- When every allowed attempt fails with a retryable classification, the
loop finishes with the outcome of the last attempt. -/
theorem requestGo_exhaust {α : Type} (oracle : Nat → Except SDKError α) (d : Nat) :
    ∀ (r a : Nat),
      (∀ i, a ≤ i → i ≤ a + r → ∃ e, oracle i = .error e ∧ isRetryableError e = true) →
      (requestGo oracle d a r).1 = oracle (a + r) := by
  intro r
  induction r with
  | zero => intro a h; simp [requestGo]
  | succ r ih =>
    intro a h
    obtain ⟨e, he, hre⟩ := h a le_rfl (by omega)
    simp only [requestGo, he, hre, if_true]
    have hrec := ih (a + 1) (fun i h1 h2 => h i (by omega) (by omega))
    rw [hrec]
    congr 1
    omega

/-- C5: the transport retries only RateLimited, TransportFailure and
5xx-ApiFailure classifications; at most maxRetries retries happen (export
default 3), the delay before the retry of attempt i is retryDelay * 2 ^ i;
any other classification is raised immediately with no retry; exhausting the
attempts re-raises the last classified error unchanged. -/
theorem c5_retry_policy {α : Type} (oracle : Nat → Except SDKError α)
    (maxRetries retryDelay : Nat) :
    resolveRetries none none = 3 ∧
    (∀ e, isRetryableError e = true ↔
      (∃ m r, e = .rateLimit m r) ∨ (∃ m, e = .network m) ∨
        (∃ m st, e = .elfaApi m st ∧ 500 ≤ st ∧ st < 600)) ∧
    (httpRequest oracle maxRetries retryDelay).2.length ≤ maxRetries ∧
    (∀ i, i < (httpRequest oracle maxRetries retryDelay).2.length →
      (httpRequest oracle maxRetries retryDelay).2.get? i = some (retryDelay * 2 ^ i)) ∧
    (∀ i, i < (httpRequest oracle maxRetries retryDelay).2.length →
      ∃ e, oracle i = .error e ∧ isRetryableError e = true) ∧
    (∀ e, oracle 0 = .error e → isRetryableError e = false →
      httpRequest oracle maxRetries retryDelay = (.error e, [])) ∧
    ((∀ i, i ≤ maxRetries → ∃ e, oracle i = .error e ∧ isRetryableError e = true) →
      (httpRequest oracle maxRetries retryDelay).1 = oracle maxRetries) := by
  refine ⟨rfl, ?_, ?_, ?_, ?_, ?_, ?_⟩
  · intro e
    cases e with
    | rateLimit m r => simp [isRetryableError]
    | network m => simp [isRetryableError]
    | elfaApi m st =>
      simp only [isRetryableError]
      by_cases h0 : st = 0
      · subst h0
        simp only [ne_eq, not_true_eq_false, if_false]
        constructor
        · intro h; cases h
        · rintro (⟨m2, r2, h⟩ | ⟨m2, h⟩ | ⟨m2, st2, heq, hs1, hs2⟩)
          · cases h
          · cases h
          · injection heq with hm hst
            omega
      · rw [if_pos h0]
        constructor
        · intro h
          simp only [Bool.and_eq_true, decide_eq_true_eq] at h
          exact Or.inr (Or.inr ⟨m, st, rfl, h.1, h.2⟩)
        · rintro (⟨m2, r2, h⟩ | ⟨m2, h⟩ | ⟨m2, st2, heq, hs1, hs2⟩)
          · cases h
          · cases h
          · injection heq with hm hst
            subst hst
            simp only [Bool.and_eq_true, decide_eq_true_eq]
            exact ⟨hs1, hs2⟩
    | twitterApi m => simp [isRetryableError]
    | validation m => simp [isRetryableError]
    | authentication m => simp [isRetryableError]
    | enhancement m => simp [isRetryableError]
  · exact requestGo_length_le oracle retryDelay maxRetries 0
  · intro i h
    have := requestGo_delay oracle retryDelay maxRetries 0 i h
    simpa using this
  · intro i h
    have := requestGo_retry_only_retryable oracle retryDelay maxRetries 0 i h
    simpa using this
  · intro e h0 hnr
    unfold httpRequest
    cases maxRetries with
    | zero => simp only [requestGo, h0]
    | succ r => simp [requestGo, h0, hnr]
  · intro h
    have := requestGo_exhaust oracle retryDelay maxRetries 0
      (fun i h1 h2 => h i (by omega))
    simpa using this

/-- Witness for c5_retry_policy: a ValidationFailure at the first attempt is
raised immediately with no retries, and a transport that fails every attempt
with a NetworkError surfaces the error of the last attempt (attempt 3 with
the default 3 retries). -/
theorem c5_retry_policy_witness :
    httpRequest (fun _ => (.error (.validation "bad") : Except SDKError Unit)) 3 1000 =
      (.error (.validation "bad"), []) ∧
    (httpRequest (fun i => (.error (.network (toString i)) : Except SDKError Unit)) 3
        1000).1 = .error (.network "3") := by
  constructor
  · exact (c5_retry_policy (fun _ => (.error (.validation "bad") : Except SDKError Unit))
      3 1000).2.2.2.2.2.1 (.validation "bad") rfl rfl
  · have h := (c5_retry_policy
      (fun i => (.error (.network (toString i)) : Except SDKError Unit)) 3 1000).2.2.2.2.2.2
      (fun i _ => ⟨.network (toString i), rfl, rfl⟩)
    rw [h]
    rfl

/-- C4 counterexample: a 429 response carrying retry-after 60 is classified
RateLimited with reset timestamp 60000 epoch-milliseconds, i.e. the header
interpreted as 60 seconds after the 1970 epoch, which is not now + 60
seconds for any contemporary clock value (shown at the concrete epoch second
1700000000). -/
theorem c4_counterexample_reset_epoch_not_relative :
    handleResponseError
        (.response 429 (.obj (some "Rate limited") none none)
          { retry_after := some "60" }) =
      .rateLimit "Rate limited" (some 60000) ∧
    ¬ (60000 : Int) = (1700000000 + 60) * 1000 := by
  exact ⟨rfl, by decide⟩

/-- C4 amended: a 429 response whose retry-after (or x-ratelimit-reset)
header parses to v is classified RateLimited with reset timestamp v * 1000
epoch-milliseconds — the header is interpreted as absolute epoch seconds,
never as a now-relative offset — and the classification is retryable, so
the request is retried with backoff up to the attempt limit. -/
theorem c4_amended_rate_limit_classification (body : JsonBody) (s : String) (v : Int)
    (hs : s ≠ "") (hv : parseIntStr s = some v) :
    handleResponseError (.response 429 body { retry_after := some s }) =
      .rateLimit (extractErrorMessage body) (some (v * 1000)) ∧
    handleResponseError (.response 429 body { x_ratelimit_reset := some s }) =
      .rateLimit (extractErrorMessage body) (some (v * 1000)) ∧
    isRetryableError (.rateLimit (extractErrorMessage body) (some (v * 1000))) = true ∧
    (∀ (α : Type) (oracle : Nat → Except SDKError α) (N d : Nat) (x : α),
      0 < N →
      oracle 0 = .error (.rateLimit (extractErrorMessage body) (some (v * 1000))) →
      oracle 1 = .ok x →
      httpRequest oracle N d = (.ok x, [d * 2 ^ 0])) := by
  refine ⟨?_, ?_, rfl, ?_⟩
  · simp [handleResponseError, extractRateLimitReset, strTruthy, hs, hv]
  · simp [handleResponseError, extractRateLimitReset, strTruthy, hs, hv]
  · intro α oracle N d x hN h0 h1
    cases N with
    | zero => omega
    | succ n =>
      unfold httpRequest
      simp only [requestGo, h0, isRetryableError, if_true]
      cases n with
      | zero => simp only [requestGo, h1]
      | succ m => simp only [requestGo, h1]

/-- Witness for c4_amended_rate_limit_classification: retry-after 120 yields
the reset timestamp 120000 epoch-milliseconds. -/
theorem c4_amended_rate_limit_classification_witness :
    handleResponseError
        (.response 429 (.obj (some "Rate limited") none none)
          { retry_after := some "120" }) =
      .rateLimit "Rate limited" (some 120000) := by
  exact (c4_amended_rate_limit_classification (.obj (some "Rate limited") none none)
    "120" 120 (by decide) (by decide)).1

/-- The chunking worker is fuel-irrelevant once the fuel covers the list
length (for a positive batch size). -/
theorem chunksOfGo_fuel {α : Type} {B : Nat} (hB : 0 < B) :
    ∀ fuel (l : List α), l.length ≤ fuel →
      chunksOfGo B fuel l = chunksOfGo B l.length l := by
  intro fuel
  induction fuel using Nat.strong_induction_on with
  | _ fuel ih =>
    intro l hl
    cases l with
    | nil => cases fuel <;> rfl
    | cons a rest =>
      cases fuel with
      | zero => simp at hl
      | succ f =>
        simp only [chunksOfGo, List.length_cons]
        congr 1
        simp only [List.length_cons] at hl
        have hdrop : ((a :: rest).drop B).length ≤ f := by
          simp only [List.length_drop, List.length_cons]
          omega
        have hdrop2 : ((a :: rest).drop B).length ≤ rest.length := by
          simp only [List.length_drop, List.length_cons]
          omega
        calc chunksOfGo B f ((a :: rest).drop B)
            = chunksOfGo B ((a :: rest).drop B).length ((a :: rest).drop B) :=
              ih f (Nat.lt_succ_self f) _ hdrop
          _ = chunksOfGo B rest.length ((a :: rest).drop B) :=
              (ih rest.length (by omega) _ hdrop2).symm

/-- chunksOf on the empty list is empty. -/
theorem chunksOf_nil {α : Type} (B : Nat) : chunksOf B ([] : List α) = [] := by
  unfold chunksOf
  split <;> rfl

/-- The defining step of chunksOf for a nonempty list and positive batch
size: one full slice, then the chunks of the remainder. -/
theorem chunksOf_cons {α : Type} {B : Nat} (hB : 0 < B) (a : α) (rest : List α) :
    chunksOf B (a :: rest) =
      (a :: rest).take B :: chunksOf B ((a :: rest).drop B) := by
  have hB0 : ¬ B = 0 := by omega
  unfold chunksOf
  rw [if_neg hB0, if_neg hB0]
  show chunksOfGo B (rest.length + 1) (a :: rest) = _
  rw [chunksOfGo]
  congr 1
  exact chunksOfGo_fuel hB rest.length _
    (by simp only [List.length_drop, List.length_cons]; omega)

/-- The number of chunks is the ceiling of the list length over the batch
size. -/
theorem chunksOf_length {α : Type} {B : Nat} (hB : 0 < B) (l : List α) :
    (chunksOf B l).length = (l.length + B - 1) / B := by
  suffices h : ∀ n (l : List α), l.length = n →
      (chunksOf B l).length = (l.length + B - 1) / B from h l.length l rfl
  intro n
  induction n using Nat.strong_induction_on with
  | _ n ih =>
    intro l hn
    cases l with
    | nil =>
      rw [chunksOf_nil]
      simp only [List.length_nil, Nat.zero_add]
      rw [Nat.div_eq_of_lt (by omega)]
    | cons a rest =>
      rw [chunksOf_cons hB]
      simp only [List.length_cons] at hn
      have hlen : ((a :: rest).drop B).length = rest.length + 1 - B := by
        simp [List.length_drop]
      have hlt : ((a :: rest).drop B).length < n := by omega
      rw [List.length_cons, ih _ hlt _ rfl, hlen, List.length_cons]
      rcases Nat.lt_or_ge rest.length B with h | h
      · have hsub : rest.length + 1 - B = 0 := Nat.sub_eq_zero_of_le (by omega)
        rw [hsub]
        have hz : (0 + B - 1) / B = 0 := Nat.div_eq_of_lt (by omega)
        have hone : (rest.length + 1 + B - 1) / B = 1 := by
          apply Nat.div_eq_of_lt_le <;> omega
        rw [hz, hone]
      · have h1 : rest.length + 1 - B + B - 1 = rest.length := by omega
        rw [h1]
        have h2 : rest.length + 1 + B - 1 = rest.length + B := by omega
        rw [h2, Nat.add_div_right _ hB]

/-- Every chunk has at most batchSize elements. -/
theorem chunksOf_chunk_le {α : Type} {B : Nat} (hB : 0 < B) (l : List α) :
    ∀ c ∈ chunksOf B l, c.length ≤ B := by
  suffices h : ∀ n (l : List α), l.length = n → ∀ c ∈ chunksOf B l, c.length ≤ B from
    h l.length l rfl
  intro n
  induction n using Nat.strong_induction_on with
  | _ n ih =>
    intro l hn
    cases l with
    | nil => rw [chunksOf_nil]; intro c hc; simp at hc
    | cons a rest =>
      rw [chunksOf_cons hB]
      intro c hc
      rcases List.mem_cons.mp hc with hc | hc
      · subst hc
        simp [List.length_take]
      · simp only [List.length_cons] at hn
        have hlt : ((a :: rest).drop B).length < n := by
          simp only [List.length_drop, List.length_cons]
          omega
        exact ih _ hlt _ rfl c hc

/-- The chunks concatenate back to the original list: every id is sent
exactly once across the batched calls. -/
theorem chunksOf_join {α : Type} {B : Nat} (hB : 0 < B) (l : List α) :
    (chunksOf B l).flatten = l := by
  suffices h : ∀ n (l : List α), l.length = n → (chunksOf B l).flatten = l from
    h l.length l rfl
  intro n
  induction n using Nat.strong_induction_on with
  | _ n ih =>
    intro l hn
    cases l with
    | nil => rw [chunksOf_nil]; rfl
    | cons a rest =>
      rw [chunksOf_cons hB]
      simp only [List.length_cons] at hn
      have hlt : ((a :: rest).drop B).length < n := by
        simp only [List.length_drop, List.length_cons]
        omega
      simp only [List.flatten_cons, ih _ hlt _ rfl]
      exact List.take_append_drop B (a :: rest)

/-- When every batched call succeeds, the chunk loop sends every chunk and
accumulates the data and users sections across chunks in order. -/
theorem fetchGo_ok (resp : List String → TwResponse) :
    ∀ bs : List (List String),
      fetchGo (fun b => .ok (resp b)) bs =
        (.ok ((bs.map (fun b => (resp b).data.getD [])).flatten,
              (bs.map (fun b => (resp b).users.getD [])).flatten), bs) := by
  intro bs
  induction bs with
  | nil => rfl
  | cons b rest ih => simp [fetchGo, ih, bind, Except.bind, pure, Except.pure]

/-- C6: for N extracted ids and effective batch size B (the per-call option
falling back to the engine default), the batched fetch invokes the secondary
client exactly ceil(N/B) times, each call carrying at most B ids and jointly
carrying every id once, and it accumulates all returned tweets and users
across chunks into single collections handed to the merge step. -/
theorem c6_batch_invariant (resp : List String → TwResponse) (optBatch : Option Nat)
    (engineDefault : Nat) (tweetIds : List String)
    (hB : 0 < effBatchSize optBatch engineDefault) :
    (fetchTwitterData (fun b => .ok (resp b)) optBatch engineDefault tweetIds).2 =
        chunksOf (effBatchSize optBatch engineDefault) tweetIds ∧
    (fetchTwitterData (fun b => .ok (resp b)) optBatch engineDefault tweetIds).2.length =
        (tweetIds.length + effBatchSize optBatch engineDefault - 1) /
          effBatchSize optBatch engineDefault ∧
    (∀ c ∈ (fetchTwitterData (fun b => .ok (resp b)) optBatch engineDefault tweetIds).2,
        c.length ≤ effBatchSize optBatch engineDefault) ∧
    (fetchTwitterData (fun b => .ok (resp b)) optBatch engineDefault tweetIds).2.flatten =
        tweetIds ∧
    (fetchTwitterData (fun b => .ok (resp b)) optBatch engineDefault tweetIds).1 =
      .ok (((chunksOf (effBatchSize optBatch engineDefault) tweetIds).map
              (fun b => (resp b).data.getD [])).flatten,
           ((chunksOf (effBatchSize optBatch engineDefault) tweetIds).map
              (fun b => (resp b).users.getD [])).flatten) := by
  have hgo := fetchGo_ok resp (chunksOf (effBatchSize optBatch engineDefault) tweetIds)
  refine ⟨?_, ?_, ?_, ?_, ?_⟩ <;>
    simp only [fetchTwitterData, hgo]
  · rw [chunksOf_length hB]
  · exact chunksOf_chunk_le hB tweetIds
  · exact chunksOf_join hB tweetIds

/-- Witness for c6_batch_invariant: five ids with per-call batch size 2 are
fetched in exactly three calls of sizes 2, 2, 1. -/
theorem c6_batch_invariant_witness :
    0 < effBatchSize (some 2) 100 ∧
    (fetchTwitterData (fun _ => .ok {}) (some 2) 100 ["1", "2", "3", "4", "5"]).2 =
      [["1", "2"], ["3", "4"], ["5"]] ∧
    (fetchTwitterData (fun _ => .ok {}) (some 2) 100 ["1", "2", "3", "4", "5"]).2.length = 3 := by
  refine ⟨by decide, ?_, ?_⟩
  · have h := (c6_batch_invariant (fun _ => ({} : TwResponse)) (some 2) 100
      ["1", "2", "3", "4", "5"] (by decide)).1
    rw [h]
    decide
  · have h := (c6_batch_invariant (fun _ => ({} : TwResponse)) (some 2) 100
      ["1", "2", "3", "4", "5"] (by decide)).2.1
    rw [h]
    decide

/-- C9: the engagement_rate produced by calculateEnhancedMetrics is present
exactly when the tweet's impression counter is present and positive, in
which case it equals (likes + reposts + replies + quotes) / impressions; it
is omitted (none, never NaN, infinity or zero-defaulted) otherwise. -/
theorem c9_engagement_rate (tweet : TwitterTweet) (user : Option TwitterUser) :
    ((calculateEnhancedMetrics tweet user).engagement_rate ≠ none ↔
      ∃ pm k, tweet.public_metrics = some pm ∧ pm.impression_count = some k ∧ 0 < k) ∧
    (∀ pm k, tweet.public_metrics = some pm → pm.impression_count = some k → 0 < k →
      (calculateEnhancedMetrics tweet user).engagement_rate =
        some (((pm.like_count + pm.retweet_count + pm.reply_count + pm.quote_count : Int) : ℚ) /
          (k : ℚ))) := by
  constructor
  · cases user <;> cases hpm : tweet.public_metrics with
    | none => simp [calculateEnhancedMetrics, hpm]
    | some pm =>
      cases hic : pm.impression_count with
      | none => simp [calculateEnhancedMetrics, hpm, hic]
      | some k =>
        by_cases hk : k ≠ 0 ∧ 0 < k
        · simp only [calculateEnhancedMetrics, hpm, hic, if_pos hk]
          simp only [ne_eq, reduceCtorEq, not_false_eq_true, true_iff]
          exact ⟨pm, k, rfl, hic, hk.2⟩
        · simp only [calculateEnhancedMetrics, hpm, hic, if_neg hk]
          simp only [ne_eq, not_true_eq_false, false_iff, not_exists]
          rintro pm2 k2 ⟨h1, h2, h3⟩
          cases h1
          rw [hic] at h2
          cases h2
          exact hk ⟨by omega, h3⟩
  · intro pm k hpm hic hk
    have hcond : k ≠ 0 ∧ 0 < k := ⟨by omega, hk⟩
    cases user <;> simp [calculateEnhancedMetrics, hpm, hic, if_pos hcond]

/-- The engagement counters of the test suite's reference tweet: 20 likes,
10 reposts, 5 replies, 2 quotes, 1000 impressions. -/
def samplePublicMetrics : TweetPublicMetrics :=
  { retweet_count := 10, like_count := 20, reply_count := 5, quote_count := 2,
    impression_count := some 1000 }

/-- The test suite's reference tweet. -/
def sampleTweet : TwitterTweet :=
  { id := "123456789", text := "Bitcoin is pumping!", author_id := "user123",
    public_metrics := some samplePublicMetrics }

/-- Witness for c9_engagement_rate: the reference tweet of the test suite
(20 likes, 10 reposts, 5 replies, 2 quotes, 1000 impressions) has
engagement rate 37/1000. -/
theorem c9_engagement_rate_witness :
    (calculateEnhancedMetrics sampleTweet none).engagement_rate =
      some (37 / 1000 : ℚ) := by
  have h := (c9_engagement_rate sampleTweet none).2 samplePublicMetrics 1000
    rfl rfl (by norm_num)
  rw [h]
  norm_num [samplePublicMetrics]

/-- When every batched call of the secondary client throws and there is at
least one id to fetch, the chunk loop of fetchTwitterData re-raises the
error of the first chunk. -/
theorem fetchTwitterData_error (cl : TwClient) (err : SDKError) (optB : Option Nat)
    (eb : Nat) (ids : List String) (hcl : ∀ b, cl b = .error err)
    (hB : 0 < effBatchSize optB eb) (hids : ids ≠ []) :
    (fetchTwitterData cl optB eb ids).1 = .error err := by
  obtain ⟨a, rest, rfl⟩ := List.exists_cons_of_ne_nil hids
  unfold fetchTwitterData
  rw [chunksOf_cons hB]
  simp [fetchGo, hcl]

/-- A secondary client whose every call throws a NetworkError. -/
def failingTwClient : TwClient := fun _ => .error (.network "boom")

/-- A processed mention carrying a status link. -/
def sampleProcessedMention : ProcessedMention :=
  { tweetId := "123456789", link := "https://x.com/user/status/123456789" }

/-- A V2 top mention carrying a status link. -/
def sampleTopMentionV2 : TopMentionV2 :=
  { tweetId := "123456789", link := "https://x.com/user/status/123456789" }

/-- C1 counterexample: with the fallback option unset (its claimed default
being fallback-on) and a failing secondary fetch, enhanceTopMentionsV2 does
not return a degraded result: it raises an EnhancementFailure, because its
fallback guard requires the option to be explicitly truthy. -/
theorem c1_counterexample_topv2_default_raises :
    enhanceTopMentionsV2 (some failingTwClient) 100 [sampleTopMentionV2]
        { includeContent := some true } =
      .error (.enhancement "Failed to enhance TopMentionsV2: boom") := by
  rfl

/-- C1 amended: when the batched secondary fetch raises err and the fetch
step is reached (content requested, extracted id set nonempty): the three
mention-shaped operations fall back whenever fallbackToSource is not
explicitly false — returning every record source-only, failed_enhancements
equal to the input length, secondaryUsed false and the error message
recorded — and raise an EnhancementFailure when it is explicitly false; the
two top-mentions operations fall back only when fallbackToSource is
explicitly true, and raise an EnhancementFailure whenever it is unset or
false. -/
theorem c1_amended_fallback_policy (cl : TwClient) (err : SDKError) (eb : Nat)
    (options : EnhancementOptions)
    (mentionsP : List ProcessedMention) (mentionsS : List SimpleMention)
    (mentionsA : List MentionWithAccountAndToken) (mentionsT : List TopMentionV2)
    (respV1 : TopMentionsResponse)
    (hcl : ∀ b, cl b = .error err)
    (hB : 0 < effBatchSize options.batchSize eb)
    (hic : boolTruthy options.includeContent = true) :
    (mentionsP.filterMap (fun m => extractTweetId m.link) ≠ [] →
      (options.fallbackToV2 ≠ some false →
        enhanceProcessedMentions (some cl) eb mentionsP options =
          .ok { data := mentionsP.map (fun m => { base := m, data_source := DataSource.elfa }),
                enhancement_info :=
                  { total_enhanced := 0,
                    failed_enhancements := (mentionsP.length : Int),
                    twitter_api_used := false, errors := some [err.message] } }) ∧
      (options.fallbackToV2 = some false →
        enhanceProcessedMentions (some cl) eb mentionsP options =
          .error (.enhancement "Failed to enhance mentions with Twitter data"))) ∧
    (mentionsS.map (fun m => m.twitter_id) ≠ [] →
      (options.fallbackToV2 ≠ some false →
        enhanceSimpleMentions (some cl) eb mentionsS options =
          .ok { data := mentionsS.map (fun m => { base := m, data_source := DataSource.elfa }),
                enhancement_info :=
                  { total_enhanced := 0,
                    failed_enhancements := (mentionsS.length : Int),
                    twitter_api_used := false, errors := some [err.message] } }) ∧
      (options.fallbackToV2 = some false →
        enhanceSimpleMentions (some cl) eb mentionsS options =
          .error (.enhancement "Failed to enhance mentions with Twitter data"))) ∧
    (mentionsA.filterMap (fun m => extractTweetId m.originalUrl) ≠ [] →
      (options.fallbackToV2 ≠ some false →
        enhanceMentionsWithAccountAndToken (some cl) eb mentionsA options =
          .ok { data := mentionsA.map (fun m => { base := m, data_source := DataSource.elfa }),
                enhancement_info :=
                  { total_enhanced := 0,
                    failed_enhancements := (mentionsA.length : Int),
                    twitter_api_used := false, errors := some [err.message] } }) ∧
      (options.fallbackToV2 = some false →
        enhanceMentionsWithAccountAndToken (some cl) eb mentionsA options =
          .error (.enhancement "Failed to enhance mentions with Twitter data"))) ∧
    (mentionsT.filterMap (fun m => extractTweetId m.link) ≠ [] →
      (options.fallbackToV2 = some true →
        enhanceTopMentionsV2 (some cl) eb mentionsT options =
          .ok { data := mentionsT.map (fun m => { base := m, data_source := DataSource.elfa }),
                enhancement_info :=
                  { total_enhanced := 0,
                    failed_enhancements := (mentionsT.length : Int),
                    twitter_api_used := false, errors := some [err.message] } }) ∧
      (boolTruthy options.fallbackToV2 = false →
        enhanceTopMentionsV2 (some cl) eb mentionsT options =
          .error (.enhancement ("Failed to enhance TopMentionsV2: " ++ err.message)))) ∧
    (respV1.data.data.filterMap extractTweetIdFromV1Mention ≠ [] →
      (options.fallbackToV2 = some true →
        enhanceTopMentionsV1 (some cl) eb respV1 options =
          .ok { data := transformToEnhancedV1Format respV1 DataSource.elfa,
                enhancement_info :=
                  { total_enhanced := 0,
                    failed_enhancements := (respV1.data.data.length : Int),
                    twitter_api_used := false, errors := some [err.message] } }) ∧
      (boolTruthy options.fallbackToV2 = false →
        enhanceTopMentionsV1 (some cl) eb respV1 options =
          .error (.enhancement ("Failed to enhance TopMentionsV1: " ++ err.message)))) := by
  refine ⟨?_, ?_, ?_, ?_, ?_⟩
  · intro hids
    have hfetch := fetchTwitterData_error cl err options.batchSize eb _ hcl hB hids
    have hne : (mentionsP.filterMap (fun m => extractTweetId m.link)).isEmpty = false := by
      simpa [List.isEmpty_iff] using hids
    constructor
    · intro hfb
      simp [enhanceProcessedMentions, hic, hne, hfetch, if_pos hfb]
    · intro hfb
      simp [enhanceProcessedMentions, hic, hne, hfetch, hfb]
  · intro hids
    have hfetch := fetchTwitterData_error cl err options.batchSize eb _ hcl hB hids
    constructor
    · intro hfb
      simp [enhanceSimpleMentions, hic, hfetch, if_pos hfb]
    · intro hfb
      simp [enhanceSimpleMentions, hic, hfetch, hfb]
  · intro hids
    have hfetch := fetchTwitterData_error cl err options.batchSize eb _ hcl hB hids
    have hne : (mentionsA.filterMap (fun m => extractTweetId m.originalUrl)).isEmpty = false := by
      simpa [List.isEmpty_iff] using hids
    constructor
    · intro hfb
      simp [enhanceMentionsWithAccountAndToken, hic, hne, hfetch, if_pos hfb]
    · intro hfb
      simp [enhanceMentionsWithAccountAndToken, hic, hne, hfetch, hfb]
  · intro hids
    have hfetch := fetchTwitterData_error cl err options.batchSize eb _ hcl hB hids
    have hne : (mentionsT.filterMap (fun m => extractTweetId m.link)).isEmpty = false := by
      simpa [List.isEmpty_iff] using hids
    constructor
    · intro hfb
      have hfb2 : boolTruthy options.fallbackToV2 = true := by rw [hfb]; rfl
      simp [enhanceTopMentionsV2, hic, hne, hfetch, hfb2]
    · intro hfb
      simp [enhanceTopMentionsV2, hic, hne, hfetch, hfb]
  · intro hids
    have hfetch := fetchTwitterData_error cl err options.batchSize eb _ hcl hB hids
    have hne : (respV1.data.data.filterMap extractTweetIdFromV1Mention).isEmpty = false := by
      simpa [List.isEmpty_iff] using hids
    constructor
    · intro hfb
      have hfb2 : boolTruthy options.fallbackToV2 = true := by rw [hfb]; rfl
      simp [enhanceTopMentionsV1, hic, hne, hfetch, hfb2]
    · intro hfb
      simp [enhanceTopMentionsV1, hic, hne, hfetch, hfb]

/-- Witness for c1_amended_fallback_policy: with the fallback option unset,
a failing fetch makes enhanceProcessedMentions return the degraded
source-only result while enhanceTopMentionsV2 raises. -/
theorem c1_amended_fallback_policy_witness :
    enhanceProcessedMentions (some failingTwClient) 100 [sampleProcessedMention]
        { includeContent := some true } =
      .ok { data := [{ base := sampleProcessedMention, data_source := DataSource.elfa }],
            enhancement_info :=
              { total_enhanced := 0, failed_enhancements := 1,
                twitter_api_used := false, errors := some ["boom"] } } ∧
    enhanceTopMentionsV2 (some failingTwClient) 100 [sampleTopMentionV2]
        { includeContent := some true } =
      .error (.enhancement "Failed to enhance TopMentionsV2: boom") := by
  have h := c1_amended_fallback_policy failingTwClient (.network "boom") 100
    { includeContent := some true } [sampleProcessedMention] [] [] [sampleTopMentionV2]
    { data := { data := [] } } (fun _ => rfl) (by decide) rfl
  constructor
  · exact (h.1 (by decide)).1 (by decide)
  · exact (h.2.2.2.1 (by decide)).2 rfl

/-- A processed mention whose link has no status segment, so no correlation
key can be extracted from it. -/
def nonTwitterMention : ProcessedMention :=
  { tweetId := "123", link := "https://example.com/post/123" }

/-- A simple mention (its correlation key is the twitter_id field). -/
def sampleSimpleMention : SimpleMention :=
  { id := 1, twitter_id := "123456789" }

/-- The result enhanceSimpleMentions actually produces on an empty input
with content requested: empty data, zero counts, twitter_api_used true. -/
def c2EmptySimpleResult : EnhancementResult (List EnhancedSimpleMention) :=
  { data := [],
    enhancement_info :=
      { total_enhanced := 0, failed_enhancements := 0, twitter_api_used := true } }

/-- C2 counterexample: enhanceSimpleMentions has no empty-key-set
short-circuit; on an empty input with content requested it performs the
(vacuous) fetch loop and reports twitter_api_used = true, where the claim
demands secondaryUsed = false. -/
theorem c2_counterexample_simple_empty_secondary_used :
    enhanceSimpleMentions (some failingTwClient) 100 [] { includeContent := some true } =
      .ok c2EmptySimpleResult ∧
    enhanceSimpleMentions (some failingTwClient) 100 [] { includeContent := some true } ≠
      .ok (sourceOnlySimple []) := by
  refine ⟨rfl, fun h => ?_⟩
  have h2 : c2EmptySimpleResult = sourceOnlySimple [] := Except.ok.inj h
  exact absurd h2 (by decide)

/-- C2 amended: with no secondary transport, or with includeContent falsy,
every operation returns the input tagged source-only with the all-zero
summary and secondaryUsed = false, touching no client (the result is the
same for every client); with content requested and an empty extracted-key
set, the same holds for enhanceProcessedMentions,
enhanceMentionsWithAccountAndToken, enhanceTopMentionsV2 and
enhanceTopMentionsV1 — but enhanceSimpleMentions, whose key set is empty
exactly when its input is empty, has no such guard: it still makes no
client call and returns no records with zero counts, yet reports
secondaryUsed = true. -/
theorem c2_amended_short_circuit (cl : TwClient) (eb : Nat)
    (options : EnhancementOptions)
    (mentionsP : List ProcessedMention) (mentionsS : List SimpleMention)
    (mentionsA : List MentionWithAccountAndToken) (mentionsT : List TopMentionV2)
    (respV1 : TopMentionsResponse) :
    (enhanceProcessedMentions none eb mentionsP options = .ok (sourceOnlyProcessed mentionsP) ∧
     enhanceSimpleMentions none eb mentionsS options = .ok (sourceOnlySimple mentionsS) ∧
     enhanceMentionsWithAccountAndToken none eb mentionsA options =
       .ok (sourceOnlyAccountToken mentionsA) ∧
     enhanceTopMentionsV2 none eb mentionsT options = .ok (sourceOnlyTopV2 mentionsT) ∧
     enhanceTopMentionsV1 none eb respV1 options = .ok (sourceOnlyTopV1 respV1)) ∧
    (boolTruthy options.includeContent = false →
      enhanceProcessedMentions (some cl) eb mentionsP options =
        .ok (sourceOnlyProcessed mentionsP) ∧
      enhanceSimpleMentions (some cl) eb mentionsS options = .ok (sourceOnlySimple mentionsS) ∧
      enhanceMentionsWithAccountAndToken (some cl) eb mentionsA options =
        .ok (sourceOnlyAccountToken mentionsA) ∧
      enhanceTopMentionsV2 (some cl) eb mentionsT options = .ok (sourceOnlyTopV2 mentionsT) ∧
      enhanceTopMentionsV1 (some cl) eb respV1 options = .ok (sourceOnlyTopV1 respV1)) ∧
    (boolTruthy options.includeContent = true →
      (mentionsP.filterMap (fun m => extractTweetId m.link) = [] →
        enhanceProcessedMentions (some cl) eb mentionsP options =
          .ok (sourceOnlyProcessed mentionsP)) ∧
      (mentionsA.filterMap (fun m => extractTweetId m.originalUrl) = [] →
        enhanceMentionsWithAccountAndToken (some cl) eb mentionsA options =
          .ok (sourceOnlyAccountToken mentionsA)) ∧
      (mentionsT.filterMap (fun m => extractTweetId m.link) = [] →
        enhanceTopMentionsV2 (some cl) eb mentionsT options =
          .ok (sourceOnlyTopV2 mentionsT)) ∧
      (respV1.data.data.filterMap extractTweetIdFromV1Mention = [] →
        enhanceTopMentionsV1 (some cl) eb respV1 options = .ok (sourceOnlyTopV1 respV1)) ∧
      (mentionsS = [] →
        enhanceSimpleMentions (some cl) eb mentionsS options =
          .ok { data := [],
                enhancement_info :=
                  { total_enhanced := 0, failed_enhancements := 0,
                    twitter_api_used := true } })) := by
  refine ⟨⟨rfl, rfl, rfl, rfl, rfl⟩, ?_, ?_⟩
  · intro h
    refine ⟨?_, ?_, ?_, ?_, ?_⟩ <;>
      simp [enhanceProcessedMentions, enhanceSimpleMentions,
        enhanceMentionsWithAccountAndToken, enhanceTopMentionsV2, enhanceTopMentionsV1, h]
  · intro hic
    refine ⟨?_, ?_, ?_, ?_, ?_⟩
    · intro hempty
      simp [enhanceProcessedMentions, hic, hempty]
    · intro hempty
      simp [enhanceMentionsWithAccountAndToken, hic, hempty]
    · intro hempty
      simp [enhanceTopMentionsV2, hic, hempty]
    · intro hempty
      simp [enhanceTopMentionsV1, hic, hempty]
    · intro hS
      subst hS
      simp [enhanceSimpleMentions, hic, fetchTwitterData, chunksOf_nil, fetchGo,
        mergeSimpleMentionsWithTwitterData, countTagged]

/-- Witness for c2_amended_short_circuit: a mention without an extractable
key short-circuits with the all-zero summary, and includeContent = false
short-circuits a simple mention, in both cases with secondaryUsed false. -/
theorem c2_amended_short_circuit_witness :
    enhanceProcessedMentions (some failingTwClient) 100 [nonTwitterMention]
        { includeContent := some true } =
      .ok (sourceOnlyProcessed [nonTwitterMention]) ∧
    enhanceSimpleMentions (some failingTwClient) 100 [sampleSimpleMention]
        { includeContent := some false } =
      .ok (sourceOnlySimple [sampleSimpleMention]) := by
  constructor
  · exact ((c2_amended_short_circuit failingTwClient 100 { includeContent := some true }
      [nonTwitterMention] [] [] [] { data := { data := [] } }).2.2 rfl).1 (by decide)
  · exact ((c2_amended_short_circuit failingTwClient 100 { includeContent := some false }
      [] [sampleSimpleMention] [] [] { data := { data := [] } }).2.1 rfl).2.1

/-- The tweet returned by the stub secondary client for the merge-path
counterexample and witnesses. -/
def sampleTweet123 : TwitterTweet :=
  { id := "123456789", text := "Fresh content from Twitter", author_id := "user123" }

/-- A secondary client that always succeeds, returning one tweet and no
users. -/
def okTwClient : TwClient :=
  fun _ => .ok { data := some [sampleTweet123], users := some [] }

/-- A V2 top mention whose link has no status segment. -/
def nonTwitterTopMention : TopMentionV2 :=
  { tweetId := "987", link := "https://example.com/post/987" }

/-- C3 counterexample: on the merge path of enhanceTopMentionsV2 with two
input records, one extractable and matched, the reported counters are
total_enhanced = 1 and failed_enhancements = 0 (the extracted-id count 1
minus 1), not the claimed input length minus total_enhanced = 2 - 1 = 1. -/
theorem c3_counterexample_topv2_failed_count :
    (enhanceTopMentionsV2 (some okTwClient) 100 [sampleTopMentionV2, nonTwitterTopMention]
        { includeContent := some true }).map
      (fun r => (r.enhancement_info.total_enhanced, r.enhancement_info.failed_enhancements)) =
      .ok (1, 0) ∧
    ((2 : Int) - 1 ≠ 0) := by
  exact ⟨rfl, by decide⟩

/-- C3 amended: on the merge path (secondary fetch succeeded),
total_enhanced equals the number of output records tagged source+enhanced
for all five operations and the output has one record per input record; for
enhanceProcessedMentions, enhanceSimpleMentions and
enhanceMentionsWithAccountAndToken, failed_enhancements equals the input
length minus total_enhanced, but for enhanceTopMentionsV2 and
enhanceTopMentionsV1 it equals the number of extracted ids minus
total_enhanced. -/
theorem c3_amended_merge_counters (cl : TwClient) (eb : Nat)
    (options : EnhancementOptions)
    (mentionsP : List ProcessedMention) (mentionsS : List SimpleMention)
    (mentionsA : List MentionWithAccountAndToken) (mentionsT : List TopMentionV2)
    (respV1 : TopMentionsResponse)
    (hic : boolTruthy options.includeContent = true) :
    (∀ tws us, mentionsP.filterMap (fun m => extractTweetId m.link) ≠ [] →
      (fetchTwitterData cl options.batchSize eb
          (mentionsP.filterMap (fun m => extractTweetId m.link))).1 = .ok (tws, us) →
      ∀ r, enhanceProcessedMentions (some cl) eb mentionsP options = .ok r →
        r.enhancement_info.total_enhanced =
          (countTagged (fun m => m.data_source) r.data : Int) ∧
        r.enhancement_info.failed_enhancements =
          (mentionsP.length : Int) - r.enhancement_info.total_enhanced ∧
        r.data.length = mentionsP.length) ∧
    (∀ tws us,
      (fetchTwitterData cl options.batchSize eb
          (mentionsS.map (fun m => m.twitter_id))).1 = .ok (tws, us) →
      ∀ r, enhanceSimpleMentions (some cl) eb mentionsS options = .ok r →
        r.enhancement_info.total_enhanced =
          (countTagged (fun m => m.data_source) r.data : Int) ∧
        r.enhancement_info.failed_enhancements =
          (mentionsS.length : Int) - r.enhancement_info.total_enhanced ∧
        r.data.length = mentionsS.length) ∧
    (∀ tws us, mentionsA.filterMap (fun m => extractTweetId m.originalUrl) ≠ [] →
      (fetchTwitterData cl options.batchSize eb
          (mentionsA.filterMap (fun m => extractTweetId m.originalUrl))).1 = .ok (tws, us) →
      ∀ r, enhanceMentionsWithAccountAndToken (some cl) eb mentionsA options = .ok r →
        r.enhancement_info.total_enhanced =
          (countTagged (fun m => m.data_source) r.data : Int) ∧
        r.enhancement_info.failed_enhancements =
          (mentionsA.length : Int) - r.enhancement_info.total_enhanced ∧
        r.data.length = mentionsA.length) ∧
    (∀ tws us, mentionsT.filterMap (fun m => extractTweetId m.link) ≠ [] →
      (fetchTwitterData cl options.batchSize eb
          (mentionsT.filterMap (fun m => extractTweetId m.link))).1 = .ok (tws, us) →
      ∀ r, enhanceTopMentionsV2 (some cl) eb mentionsT options = .ok r →
        r.enhancement_info.total_enhanced =
          (countTagged (fun m => m.data_source) r.data : Int) ∧
        r.enhancement_info.failed_enhancements =
          ((mentionsT.filterMap (fun m => extractTweetId m.link)).length : Int) -
            r.enhancement_info.total_enhanced ∧
        r.data.length = mentionsT.length) ∧
    (∀ tws us, respV1.data.data.filterMap extractTweetIdFromV1Mention ≠ [] →
      (fetchTwitterData cl options.batchSize eb
          (respV1.data.data.filterMap extractTweetIdFromV1Mention)).1 = .ok (tws, us) →
      ∀ r, enhanceTopMentionsV1 (some cl) eb respV1 options = .ok r →
        r.enhancement_info.total_enhanced =
          (countTagged (fun m => m.data_source) r.data.data.data : Int) ∧
        r.enhancement_info.failed_enhancements =
          ((respV1.data.data.filterMap extractTweetIdFromV1Mention).length : Int) -
            r.enhancement_info.total_enhanced ∧
        r.data.data.data.length = respV1.data.data.length) := by
  refine ⟨?_, ?_, ?_, ?_, ?_⟩
  · intro tws us hids hfetch r hr
    have hne : (mentionsP.filterMap (fun m => extractTweetId m.link)).isEmpty = false := by
      simpa [List.isEmpty_iff] using hids
    simp only [enhanceProcessedMentions, hic, Bool.not_true, Bool.false_eq_true, if_false,
      hne, hfetch] at hr
    cases hr
    refine ⟨rfl, rfl, ?_⟩
    simp [mergeProcessedMentionsWithTwitterData]
  · intro tws us hfetch r hr
    simp only [enhanceSimpleMentions, hic, Bool.not_true, Bool.false_eq_true, if_false,
      hfetch] at hr
    cases hr
    refine ⟨rfl, rfl, ?_⟩
    simp [mergeSimpleMentionsWithTwitterData]
  · intro tws us hids hfetch r hr
    have hne : (mentionsA.filterMap (fun m => extractTweetId m.originalUrl)).isEmpty = false := by
      simpa [List.isEmpty_iff] using hids
    simp only [enhanceMentionsWithAccountAndToken, hic, Bool.not_true, Bool.false_eq_true,
      if_false, hne, hfetch] at hr
    cases hr
    refine ⟨rfl, rfl, ?_⟩
    simp [mergeMentionsWithAccountAndTokenWithTwitterData]
  · intro tws us hids hfetch r hr
    have hne : (mentionsT.filterMap (fun m => extractTweetId m.link)).isEmpty = false := by
      simpa [List.isEmpty_iff] using hids
    simp only [enhanceTopMentionsV2, hic, Bool.not_true, Bool.false_eq_true, if_false,
      hne, hfetch] at hr
    cases hr
    refine ⟨rfl, rfl, ?_⟩
    simp [mergeTopMentionsV2WithTwitterData]
  · intro tws us hids hfetch r hr
    have hne : (respV1.data.data.filterMap extractTweetIdFromV1Mention).isEmpty = false := by
      simpa [List.isEmpty_iff] using hids
    simp only [enhanceTopMentionsV1, hic, Bool.not_true, Bool.false_eq_true, if_false,
      hne, hfetch] at hr
    cases hr
    refine ⟨rfl, rfl, ?_⟩
    simp [mergeTopMentionsV1WithTwitterData]

/-- The merge-path enhancement result of the two-record processed-mentions
sample against the stub client. -/
def c3SampleResult : EnhancementResult (List EnhancedProcessedMention) :=
  { data := mergeProcessedMentionsWithTwitterData [sampleProcessedMention, nonTwitterMention]
      [sampleTweet123] [],
    enhancement_info :=
      { total_enhanced := 1, failed_enhancements := 1, twitter_api_used := true } }

/-- Witness for c3_amended_merge_counters: on the two-record sample, the
reported total matches the tag count in the output and the failure count is
the input length minus the total. -/
theorem c3_amended_merge_counters_witness :
    c3SampleResult.enhancement_info.total_enhanced =
      (countTagged (fun m => m.data_source) c3SampleResult.data : Int) ∧
    c3SampleResult.enhancement_info.failed_enhancements =
      2 - c3SampleResult.enhancement_info.total_enhanced ∧
    c3SampleResult.data.length = 2 := by
  have h := (c3_amended_merge_counters okTwClient 100 { includeContent := some true }
    [sampleProcessedMention, nonTwitterMention] [] [] [] { data := { data := [] } } rfl).1
    [sampleTweet123] [] (by decide) rfl c3SampleResult rfl
  exact ⟨h.1, h.2.1, h.2.2⟩

/-- A constructed instance's stored options, with both credentials set at
construction time. -/
def sampleConfig : SDKConfig :=
  { elfaApiKey := "real-key", twitterApiKey := some "tw-token" }

/-- C10 counterexample: an update that contains the primary credential field
with the empty string is not rejected (the guard tests JavaScript truthiness,
and the empty string is falsy) and overwrites the stored construction-time
key, so the credential does not retain its construction-time value. -/
theorem c10_counterexample_empty_credential_update :
    updateOptions sampleConfig { elfaApiKey := some "" } =
      .ok { sampleConfig with elfaApiKey := "" } ∧
    ("" : String) ≠ sampleConfig.elfaApiKey := by
  exact ⟨rfl, by decide⟩

/-- An updateOptions call that carries no key-present-but-empty credential
leaves both stored credentials unchanged (it is either rejected outright or
merges none for both credential fields). -/
theorem applyUpdate_credentials (cfg : SDKConfig) (m : PartialSDKOptions)
    (he : m.elfaApiKey ≠ some "") (ht : m.twitterApiKey ≠ some "") :
    (applyUpdate cfg m).elfaApiKey = cfg.elfaApiKey ∧
    (applyUpdate cfg m).twitterApiKey = cfg.twitterApiKey := by
  unfold applyUpdate updateOptions
  cases hek : m.elfaApiKey with
  | some s =>
    have hs : s ≠ "" := by
      intro hcon
      subst hcon
      exact he hek
    have hst : strTruthy (some s) = true := by simp [strTruthy, hs]
    simp [hst]
  | none =>
    cases htk : m.twitterApiKey with
    | some t =>
      have ht2 : t ≠ "" := by
        intro hcon
        subst hcon
        exact ht htk
      simp [strTruthy, ht2]
    | none => simp [strTruthy]

/-- C10 amended: an update carrying a truthy (non-empty) value for either
credential field is rejected with a ValidationFailure before any merge; an
update in which both credential fields are absent merges shallowly and
preserves both credentials; consequently across any sequence of updates none
of which carries a present-but-empty credential value, the two credential
fields retain their construction-time values. (An update carrying an
empty-string credential is the exception shown by the counterexample.) -/
theorem c10_amended_credential_immutability (cfg : SDKConfig)
    (n : PartialSDKOptions) (l : List PartialSDKOptions) :
    (strTruthy n.elfaApiKey = true →
      updateOptions cfg n =
        .error (.validation "Cannot update elfaApiKey after initialization")) ∧
    (strTruthy n.elfaApiKey = false → strTruthy n.twitterApiKey = true →
      updateOptions cfg n =
        .error (.validation "Cannot update twitterApiKey after initialization")) ∧
    (n.elfaApiKey = none → n.twitterApiKey = none →
      updateOptions cfg n =
        .ok { elfaApiKey := cfg.elfaApiKey
              twitterApiKey := cfg.twitterApiKey
              baseUrl := n.baseUrl.getD cfg.baseUrl
              fetchRawTweets := n.fetchRawTweets.getD cfg.fetchRawTweets
              enhancementTimeout := n.enhancementTimeout.getD cfg.enhancementTimeout
              maxBatchSize := n.maxBatchSize.getD cfg.maxBatchSize
              strictMode := n.strictMode.getD cfg.strictMode
              cacheEnhancements := n.cacheEnhancements.getD cfg.cacheEnhancements
              respectRateLimits := n.respectRateLimits.getD cfg.respectRateLimits
              retryOnRateLimit := n.retryOnRateLimit.getD cfg.retryOnRateLimit
              debug := n.debug.getD cfg.debug }) ∧
    ((∀ m ∈ l, m.elfaApiKey ≠ some "" ∧ m.twitterApiKey ≠ some "") →
      (applyUpdates cfg l).elfaApiKey = cfg.elfaApiKey ∧
      (applyUpdates cfg l).twitterApiKey = cfg.twitterApiKey) := by
  refine ⟨?_, ?_, ?_, ?_⟩
  · intro h
    unfold updateOptions
    rw [if_pos h]
  · intro h1 h2
    unfold updateOptions
    rw [if_neg (by simp [h1]), if_pos h2]
  · intro h1 h2
    unfold updateOptions
    rw [if_neg (by simp [strTruthy, h1]), if_neg (by simp [strTruthy, h2])]
    simp [h1, h2]
  · clear n
    induction l generalizing cfg with
    | nil => intro h; exact ⟨rfl, rfl⟩
    | cons m rest ih =>
      intro h
      have hm := h m (List.mem_cons_self m rest)
      have hstep := applyUpdate_credentials cfg m hm.1 hm.2
      have hrest := ih (applyUpdate cfg m) (fun x hx => h x (List.mem_cons_of_mem m hx))
      simp only [applyUpdates, List.foldl_cons] at *
      exact ⟨hrest.1.trans hstep.1, hrest.2.trans hstep.2⟩

/-- Witness for c10_amended_credential_immutability: a non-empty credential
update on the sample configuration is rejected, and a two-update sequence
(a debug toggle, then an attempted token change) leaves the stored primary
key at its construction-time value. -/
theorem c10_amended_credential_immutability_witness :
    updateOptions sampleConfig { elfaApiKey := some "other" } =
      .error (.validation "Cannot update elfaApiKey after initialization") ∧
    (applyUpdates sampleConfig
      [{ debug := some true }, { twitterApiKey := some "stolen" }]).elfaApiKey =
      "real-key" := by
  constructor
  · exact (c10_amended_credential_immutability sampleConfig
      { elfaApiKey := some "other" } []).1 (by decide)
  · have h := (c10_amended_credential_immutability sampleConfig {}
      [{ debug := some true }, { twitterApiKey := some "stolen" }]).2.2.2
      (by decide)
    exact h.1

end ElfaSdk
